import Mathlib

/-!
# pwc: window registry, focus and cursor interaction

A shallow embedding of `src/main.c` of the pwc compositor.

Conventions of the embedding

* The one `struct pwc_server` of the process is a record that every handler
  receives and returns.  The state kept by wlroots on behalf of the compositor
  (keyboard focus of the seat, the active keyboard of the seat, activation flag
  of each xdg toplevel, position of each scene node, cursor position) is part
  of the same record, and every call into a collaborator is appended to
  `calls`, oldest first.
* A `struct wl_list` of toplevels is a `List`; `wl_list_insert (head, x)` puts
  `x` in front, `wl_list_remove` erases it, `head.prev` is the last element.
* `int` is `Int` (no overflow is modelled: screen coordinates).  A `double`
  is the rational it denotes; the subtraction of two `double` values is
  `double_sub`, the exact difference rounded to the nearest binary64 value
  (ties to even), the conversion `int → double` is exact, and the implicit
  conversion `double → int` of C is truncation toward zero.
* Handlers that recover their object with `wl_container_of` receive the address
  of the listener that fired; they return `none` when the recovered address is
  not the start of a `struct pwc_toplevel` (no defined behaviour in C).
-/

namespace Pwc

/-! ## Data model -/

/-- Identity of one `struct pwc_toplevel` allocation. -/
abbrev Toplevel := Nat

/-- A `struct wlr_surface *`: either the surface of an xdg toplevel
(`toplevel->xdg_toplevel->base->surface`) or a surface with another role. -/
inductive Surface where
  | xdg (t : Toplevel)
  | other (n : Nat)
  deriving DecidableEq, Repr

/-- The enum `pwc_cursor_mode` (lines 28-32). -/
inductive pwc_cursor_mode where
  | PWC_CURSOR_PASSTHROUGH
  | PWC_CURSOR_MOVE
  | PWC_CURSOR_RESIZE
  deriving DecidableEq, Repr

open pwc_cursor_mode

/-- The `struct wlr_box` of wlroots: four `int` fields. -/
structure wlr_box where
  x : Int
  y : Int
  width : Int
  height : Int
  deriving DecidableEq, Repr

/-- What `wlr_scene_node_at` found under a layout coordinate, reduced to what
`desktop_toplevel_at` reads from it. -/
structure wlr_scene_node where
  /-- Whether `node->type == WLR_SCENE_NODE_BUFFER`. -/
  is_buffer : Bool
  /-- Surface of `wlr_scene_surface_try_from_buffer`, when the buffer has one. -/
  scene_surface : Option Surface
  /-- The `data` of the first ancestor tree whose `data` is not NULL. -/
  ancestor_data : Option Toplevel
  deriving DecidableEq, Repr

/-- Members of `struct pwc_toplevel` (lines 81-94), in declaration order. -/
inductive toplevel_member where
  | link
  | server
  | xdg_toplevel
  | scene_tree
  | map
  | unmap
  | commit
  | destroy
  | request_move
  | request_resize
  | request_maximize
  | request_fullscreen
  deriving DecidableEq, Repr

/-- Size of a member of `struct pwc_toplevel`, in pointer-sized words: a
`struct wl_list` is two pointers (`prev`, `next`), a `struct wl_listener` is a
`wl_list` followed by the `notify` function pointer. -/
def sizeof_member : toplevel_member → Int
  | toplevel_member.link => 2
  | toplevel_member.server => 1
  | toplevel_member.xdg_toplevel => 1
  | toplevel_member.scene_tree => 1
  | _ => 3

/-- The members of `struct pwc_toplevel` in the order of lines 82-93. -/
def toplevel_members : List toplevel_member :=
  [toplevel_member.link, toplevel_member.server, toplevel_member.xdg_toplevel,
   toplevel_member.scene_tree, toplevel_member.map, toplevel_member.unmap,
   toplevel_member.commit, toplevel_member.destroy, toplevel_member.request_move,
   toplevel_member.request_resize, toplevel_member.request_maximize,
   toplevel_member.request_fullscreen]

/-- The `offsetof (struct pwc_toplevel, member)` in pointer-sized words: the sum
of the sizes of the members declared before it. -/
def offsetof (member : toplevel_member) : Int :=
  ((toplevel_members.takeWhile fun m => decide (m ≠ member)).map sizeof_member).sum

/-- An address inside the allocation of a `struct pwc_toplevel`: the allocation
and a word offset from its start. -/
structure Ptr where
  base : Toplevel
  off : Int
  deriving DecidableEq, Repr

/-- The address `&toplevel->member`. -/
def addr_of (toplevel : Toplevel) (member : toplevel_member) : Ptr :=
  { base := toplevel, off := offsetof member }

/-- The libwayland `wl_container_of (ptr, sample, member)` for a sample of type
`struct pwc_toplevel *`: the pointer minus `offsetof (member)`. -/
def wl_container_of (ptr : Ptr) (member : toplevel_member) : Ptr :=
  { base := ptr.base, off := ptr.off - offsetof member }

/-- Reads a pointer as a `struct pwc_toplevel *`: it designates a toplevel only
when it is the start of the allocation. -/
def as_toplevel (p : Ptr) : Option Toplevel :=
  if p.off = 0 then some p.base else none

/-- The signals of an xdg toplevel and of its surface that the compositor
listens to (lines 643-661). -/
inductive toplevel_signal where
  | surface_map
  | surface_unmap
  | surface_commit
  | surface_destroy
  | request_move
  | request_resize
  | request_maximize
  | request_fullscreen
  deriving DecidableEq, Repr

/-- The notify functions installed on the listeners of a toplevel. -/
inductive toplevel_notify where
  | xdg_toplevel_map
  | xdg_toplevel_unmap
  | xdg_toplevel_commit
  | xdg_toplevel_destroy
  | xdg_toplevel_request_move
  | xdg_toplevel_request_resize
  | xdg_toplevel_request_maximize
  | xdg_toplevel_request_fullscreen
  deriving DecidableEq, Repr

/-- One registered `struct wl_listener`: the signal it was added to, its own
address and its `notify` function. -/
structure wl_listener where
  /-- The toplevel whose xdg toplevel (or surface) owns the signal. -/
  emitter : Toplevel
  signal : toplevel_signal
  /-- The address of the listener itself, which the handler receives. -/
  link : Ptr
  notify : toplevel_notify
  deriving DecidableEq, Repr

/-- The listener members of `struct pwc_output` (lines 72-79). -/
inductive output_member where
  | frame
  | request_state
  | destroy
  deriving DecidableEq, Repr

/-- The listener members of `struct pwc_keyboard` (lines 102-110). -/
inductive keyboard_member where
  | modifiers
  | key
  | destroy
  deriving DecidableEq, Repr

/-- The listener members of `struct pwc_popup` (lines 96-100). -/
inductive popup_member where
  | commit
  | destroy
  deriving DecidableEq, Repr

/-- The `struct wlr_output_mode` of wlroots: width, height and refresh rate. -/
structure wlr_output_mode where
  width : Nat
  height : Nat
  refresh : Nat
  deriving DecidableEq, Repr

/-- One call into a collaborator (wlroots, libwayland, libc). -/
inductive Call where
  | xdg_toplevel_set_activated (t : Toplevel) (activated : Bool)
  | scene_node_raise_to_top (t : Toplevel)
  | scene_node_set_position (t : Toplevel) (x y : Int)
  | xdg_toplevel_set_size (t : Toplevel) (width height : Int)
  | seat_keyboard_notify_enter (surface : Surface)
  | seat_set_keyboard (keyboard : Nat)
  | seat_keyboard_notify_key (time_msec keycode state : Nat)
  | seat_pointer_notify_button (time_msec button state : Nat)
  | seat_pointer_notify_enter (surface : Surface)
  | seat_pointer_notify_motion (time_msec : Nat)
  | xdg_surface_schedule_configure (t : Toplevel)
  | seat_pointer_clear_focus
  | cursor_set_xcursor (name : String)
  | display_terminate
  | system (command : String)
  | output_init_render (output : Nat)
  | output_commit_state (output : Nat) (enabled : Bool) (mode : Option wlr_output_mode)
  | output_layout_add_auto (output : Nat)
  | scene_output_create (output : Nat)
  | scene_output_layout_add_output (output : Nat)
  | keyboard_set_keymap (keyboard : Nat)
  | keyboard_set_repeat_info (keyboard rate delay : Nat)
  | scene_xdg_surface_create (surface : Nat)
  deriving DecidableEq, Repr

/-- The `struct pwc_server` (lines 34-70) together with the collaborator state
its handlers read and write. -/
structure pwc_server where
  /-- The list `server->toplevels`, head first. -/
  toplevels : List Toplevel
  cursor_mode : pwc_cursor_mode
  grabbed_toplevel : Option Toplevel
  grab_x : ℚ
  grab_y : ℚ
  grab_geobox : wlr_box
  resize_edges : Nat
  /-- The fields `server->cursor->x` and `server->cursor->y`. -/
  cursor_x : ℚ
  cursor_y : ℚ
  /-- The field `seat->keyboard_state.focused_surface`. -/
  focused_surface : Option Surface
  /-- What `wlr_seat_get_keyboard (seat)` returns. -/
  seat_keyboard : Option Nat
  /-- Activation flag of each xdg toplevel, as last set by
  `wlr_xdg_toplevel_set_activated`. -/
  activated : Toplevel → Bool
  /-- The fields `toplevel->scene_tree->node.x` and `.y`. -/
  node_x : Toplevel → Int
  node_y : Toplevel → Int
  /-- The box `toplevel->xdg_toplevel->base->geometry`. -/
  geometry : Toplevel → wlr_box
  /-- Listeners currently registered on the signals of toplevels, in the order
  of their `wl_signal_add`. -/
  listeners : List wl_listener
  /-- Calls made into collaborators so far, oldest first. -/
  calls : List Call
  /-- The list `server->outputs`, head first; an output is named by its
  `struct wlr_output`. -/
  outputs : List Nat := []
  /-- The outputs that the compositor has put in `server->output_layout`, in the
  order of their `wlr_output_layout_add_auto` (left to right). -/
  output_layout : List Nat := []
  /-- Listeners of outputs currently registered: the output and the member. -/
  output_listeners : List (Nat × output_member) := []
  /-- The list `server->keyboards`, head first; a keyboard is named by its
  `struct wlr_keyboard`. -/
  keyboards : List Nat := []
  /-- Listeners of keyboards currently registered: the keyboard and the member. -/
  keyboard_listeners : List (Nat × keyboard_member) := []
  /-- Listeners of popups currently registered: the popup and the member. -/
  popup_listeners : List (Nat × popup_member) := []

/-! ## Collaborator primitives -/

/-- Appends one collaborator call to the record of calls. -/
def emit (c : Call) (s : pwc_server) : pwc_server :=
  { s with calls := s.calls ++ [c] }

/-- The libwayland `wl_list_insert (&server->toplevels, &toplevel->link)`. -/
def wl_list_insert (toplevel : Toplevel) (s : pwc_server) : pwc_server :=
  { s with toplevels := toplevel :: s.toplevels }

/-- The libwayland `wl_list_remove (&toplevel->link)`. -/
def wl_list_remove (toplevel : Toplevel) (s : pwc_server) : pwc_server :=
  { s with toplevels := s.toplevels.erase toplevel }

/-- The wlroots `wlr_xdg_toplevel_try_from_wlr_surface`. -/
def wlr_xdg_toplevel_try_from_wlr_surface : Surface → Option Toplevel
  | Surface.xdg t => some t
  | Surface.other _ => none

/-- The wlroots `wlr_xdg_toplevel_set_activated`: records the flag and the call. -/
def wlr_xdg_toplevel_set_activated (t : Toplevel) (b : Bool) (s : pwc_server) : pwc_server :=
  emit (Call.xdg_toplevel_set_activated t b)
    { s with activated := fun u => if u = t then b else s.activated u }

/-- The wlroots `wlr_seat_keyboard_notify_enter` under the default keyboard grab:
the surface becomes the keyboard-focused surface of the seat. -/
def wlr_seat_keyboard_notify_enter (surface : Surface) (s : pwc_server) : pwc_server :=
  emit (Call.seat_keyboard_notify_enter surface) { s with focused_surface := some surface }

/-- The wlroots `wlr_seat_set_keyboard`. -/
def wlr_seat_set_keyboard (keyboard : Nat) (s : pwc_server) : pwc_server :=
  emit (Call.seat_set_keyboard keyboard) { s with seat_keyboard := some keyboard }

/-- The wlroots `wlr_scene_node_set_position` on the scene tree of a toplevel. -/
def wlr_scene_node_set_position (t : Toplevel) (x y : Int) (s : pwc_server) : pwc_server :=
  emit (Call.scene_node_set_position t x y)
    { s with node_x := fun u => if u = t then x else s.node_x u,
             node_y := fun u => if u = t then y else s.node_y u }

/-! ## Focus (lines 113-140) -/

/-- The function `focus_toplevel` (lines 113-140); `none` is the NULL toplevel. -/
def focus_toplevel (toplevel : Option Toplevel) (s : pwc_server) : pwc_server :=
  match toplevel with
  | none => s
  | some toplevel =>
    let prev_surface := s.focused_surface
    let surface := Surface.xdg toplevel
    if prev_surface = some surface then s
    else
      let s1 :=
        match prev_surface with
        | none => s
        | some prev =>
          match wlr_xdg_toplevel_try_from_wlr_surface prev with
          | none => s
          | some prev_toplevel => wlr_xdg_toplevel_set_activated prev_toplevel false s
      let keyboard := s1.seat_keyboard
      let s2 := emit (Call.scene_node_raise_to_top toplevel) s1
      let s3 := wl_list_remove toplevel s2
      let s4 := wl_list_insert toplevel s3
      let s5 := wlr_xdg_toplevel_set_activated toplevel true s4
      match keyboard with
      | none => s5
      | some _ => wlr_seat_keyboard_notify_enter surface s5


/-! ## Keyboard (lines 151-199) -/

/-- Modelled from the spec: keysym values of the three bound keys (Escape, F1,
Return), constants of xkbcommon that the repository does not declare. -/
def XKB_KEY_Escape : Nat := 0xff1b

/-- Modelled from the spec: keysym of F1, the cycle-focus key (xkbcommon). -/
def XKB_KEY_F1 : Nat := 0xffbe

/-- Modelled from the spec: keysym of Return, the launch key (xkbcommon). -/
def XKB_KEY_Return : Nat := 0xff0d

/-- Modelled from the spec: bit of the designated modifier (Alt) in the modifier
mask of wlroots. -/
def WLR_MODIFIER_ALT : Nat := 8

/-- Modelled from the spec: the key state "pressed" of the wayland protocol. -/
def WL_KEYBOARD_KEY_STATE_PRESSED : Nat := 1

/-- Modelled from the spec: the key state "released" of the wayland protocol. -/
def WL_KEYBOARD_KEY_STATE_RELEASED : Nat := 0

/-- The function `handle_keybindings` (lines 151-170): the state after the
command and whether the symbol was handled. -/
def handle_keybindings (s : pwc_server) (sym : Nat) : pwc_server × Bool :=
  if sym = XKB_KEY_Escape then (emit Call.display_terminate s, true)
  else if sym = XKB_KEY_F1 then
    if s.toplevels.length < 2 then (s, true)
    else (focus_toplevel s.toplevels.getLast? s, true)
  else if sym = XKB_KEY_Return then (emit (Call.system "alacritty &") s, true)
  else (s, false)

/-- What `keyboard_handle_key` reads from its `struct pwc_keyboard`. -/
structure pwc_keyboard where
  /-- Identity of `keyboard->wlr_keyboard`. -/
  wlr_keyboard : Nat
  /-- Result of `wlr_keyboard_get_modifiers`. -/
  modifiers : Nat
  /-- Result of `xkb_state_key_get_syms` for an xkb keycode. -/
  xkb_state_key_get_syms : Nat → List Nat

/-- The `struct wlr_keyboard_key_event` of wlroots. -/
structure wlr_keyboard_key_event where
  time_msec : Nat
  keycode : Nat
  state : Nat
  deriving DecidableEq, Repr

/-- The loop of lines 189-191: every symbol is given to `handle_keybindings`
and `handled` is assigned the result of each call in turn. -/
def keybindings_loop (syms : List Nat) (s : pwc_server) (handled : Bool) : pwc_server × Bool :=
  syms.foldl (fun acc sym => handle_keybindings acc.1 sym) (s, handled)

/-- The function `keyboard_handle_key` (lines 172-199). -/
def keyboard_handle_key (keyboard : pwc_keyboard) (event : wlr_keyboard_key_event)
    (s : pwc_server) : pwc_server :=
  let keycode := (event.keycode + 8) % 2 ^ 32
  let syms := keyboard.xkb_state_key_get_syms keycode
  let handled := false
  let modifiers := keyboard.modifiers
  let r :=
    if modifiers &&& WLR_MODIFIER_ALT ≠ 0 ∧ event.state = WL_KEYBOARD_KEY_STATE_PRESSED then
      keybindings_loop syms s handled
    else (s, handled)
  if r.2 = false then
    emit (Call.seat_keyboard_notify_key event.time_msec event.keycode event.state)
      (wlr_seat_set_keyboard keyboard.wlr_keyboard r.1)
  else r.1

/-! ## Cursor interaction (lines 294-422) -/

/-- Modelled from the spec: the edge bit "top" of the resize edge mask (wlroots). -/
def WLR_EDGE_TOP : Nat := 1

/-- Modelled from the spec: the edge bit "bottom" of the resize edge mask (wlroots). -/
def WLR_EDGE_BOTTOM : Nat := 2

/-- Modelled from the spec: the edge bit "left" of the resize edge mask (wlroots). -/
def WLR_EDGE_LEFT : Nat := 4

/-- Modelled from the spec: the edge bit "right" of the resize edge mask (wlroots). -/
def WLR_EDGE_RIGHT : Nat := 8

/-- Modelled from the spec: the button state "released" of the wayland protocol. -/
def WL_POINTER_BUTTON_STATE_RELEASED : Nat := 0

/-- Modelled from the spec: the button state "pressed" of the wayland protocol. -/
def WL_POINTER_BUTTON_STATE_PRESSED : Nat := 1

/-- The conversion of a `double` to `int` in C: truncation toward zero. -/
def double_to_int (d : ℚ) : Int :=
  if 0 ≤ d then ⌊d⌋ else ⌈d⌉

/-- Rounding of a rational to the nearest integer, a tie going to the even
neighbour: the rounding direction of IEEE 754 arithmetic in its default mode. -/
def round_half_even (x : ℚ) : Int :=
  if x - (⌊x⌋ : ℚ) < 1 / 2 then ⌊x⌋
  else if 1 / 2 < x - (⌊x⌋ : ℚ) then ⌊x⌋ + 1
  else if ⌊x⌋ % 2 = 0 then ⌊x⌋ else ⌊x⌋ + 1

/-- The exponent `k` such that the binary64 values next to `q` are the multiples
of `2 ^ k`: a significand of 53 bits, so `k` is 52 below the binary exponent of
`q`, and not below `-1074` (subnormal range).  From `2 ^ 53` on the exponent
stays `0`: those magnitudes lie outside the range of `int`, and every value of
the unbounded `Int` that stands for `int` keeps an exact `double`, as every
`int` does in C. -/
def double_ulp_exp (q : ℚ) : Int :=
  max (min (Int.log 2 |q| - 52) 0) (-1074)

/-- The binary64 value that an arithmetic result `q` is rounded to (round to
nearest, ties to even; overflow to infinity is not modelled). -/
def double_round (q : ℚ) : ℚ :=
  if q = 0 then 0
  else (round_half_even (q / (2 : ℚ) ^ double_ulp_exp q) : ℚ) * (2 : ℚ) ^ double_ulp_exp q

/-- The operator `-` of C on two `double` operands: the exact difference,
rounded to binary64. -/
def double_sub (a b : ℚ) : ℚ := double_round (a - b)

/-- The function `desktop_toplevel_at` (lines 294-306), given the answer of
`wlr_scene_node_at`: the toplevel returned and the surface stored in `*surface`. -/
def desktop_toplevel_at (node : Option wlr_scene_node) : Option Toplevel × Option Surface :=
  match node with
  | none => (none, none)
  | some node =>
    if node.is_buffer = false then (none, none)
    else
      match node.scene_surface with
      | none => (none, none)
      | some surface => (node.ancestor_data, some surface)

/-- The function `reset_cursor_mode` (lines 308-312). -/
def reset_cursor_mode (s : pwc_server) : pwc_server :=
  { s with cursor_mode := PWC_CURSOR_PASSTHROUGH, grabbed_toplevel := none }

/-- The function `process_cursor_mode` (lines 314-318), the move handler; `none`
when `server->grabbed_toplevel` is NULL (the function dereferences it). -/
def process_cursor_mode (s : pwc_server) : Option pwc_server :=
  match s.grabbed_toplevel with
  | none => none
  | some toplevel =>
    some (wlr_scene_node_set_position toplevel
      (double_to_int (double_sub s.cursor_x s.grab_x))
      (double_to_int (double_sub s.cursor_y s.grab_y)) s)

/-- Lines 325-348 of `process_cursor_resize`: the four edges
`(new_left, new_right, new_top, new_bottom)` computed from the grab box, the
edge mask and the cursor. -/
def resize_edges_at (s : pwc_server) : Int × Int × Int × Int :=
  let border_x := double_sub s.cursor_x s.grab_x
  let border_y := double_sub s.cursor_y s.grab_y
  let new_left := s.grab_geobox.x
  let new_right := s.grab_geobox.x + s.grab_geobox.width
  let new_top := s.grab_geobox.y
  let new_bottom := s.grab_geobox.y + s.grab_geobox.height
  let tb : Int × Int :=
    if s.resize_edges &&& WLR_EDGE_TOP ≠ 0 then
      let new_top := double_to_int border_y
      (if new_top ≥ new_bottom then new_bottom - 1 else new_top, new_bottom)
    else if s.resize_edges &&& WLR_EDGE_BOTTOM ≠ 0 then
      let new_bottom := double_to_int border_y
      (new_top, if new_bottom ≤ new_top then new_top + 1 else new_bottom)
    else (new_top, new_bottom)
  let lr : Int × Int :=
    if s.resize_edges &&& WLR_EDGE_LEFT ≠ 0 then
      let new_left := double_to_int border_x
      (if new_left ≥ new_right then new_right - 1 else new_left, new_right)
    else if s.resize_edges &&& WLR_EDGE_RIGHT ≠ 0 then
      let new_right := double_to_int border_x
      (new_left, if new_right ≤ new_left then new_left + 1 else new_right)
    else (new_left, new_right)
  (lr.1, lr.2, tb.1, tb.2)

/-- The function `process_cursor_resize` (lines 320-356); `none` when
`server->grabbed_toplevel` is NULL (the function dereferences it). -/
def process_cursor_resize (s : pwc_server) : Option pwc_server :=
  match s.grabbed_toplevel with
  | none => none
  | some toplevel =>
    let new_left := (resize_edges_at s).1
    let new_right := (resize_edges_at s).2.1
    let new_top := (resize_edges_at s).2.2.1
    let new_bottom := (resize_edges_at s).2.2.2
    let geo_box := s.geometry toplevel
    let s1 := wlr_scene_node_set_position toplevel (new_left - geo_box.x) (new_top - geo_box.y) s
    let new_width := new_right - new_left
    let new_height := new_bottom - new_top
    some (emit (Call.xdg_toplevel_set_size toplevel new_width new_height) s1)

/-- The function `process_cursor_motion` (lines 358-383); `node` is the answer of
`wlr_scene_node_at` at the cursor position. -/
def process_cursor_motion (time : Nat) (node : Option wlr_scene_node) (s : pwc_server) :
    Option pwc_server :=
  if s.cursor_mode = PWC_CURSOR_MOVE then process_cursor_mode s
  else if s.cursor_mode = PWC_CURSOR_RESIZE then process_cursor_resize s
  else
    let hit := desktop_toplevel_at node
    let s1 := if hit.1 = none then emit (Call.cursor_set_xcursor "default") s else s
    match hit.2 with
    | some surface =>
      some (emit (Call.seat_pointer_notify_motion time)
        (emit (Call.seat_pointer_notify_enter surface) s1))
    | none => some (emit Call.seat_pointer_clear_focus s1)

/-- The handlers `server_cursor_motion` and `server_cursor_motion_absolute`
(lines 385-403); `(x, y)` is where `wlr_cursor_move` or `wlr_cursor_warp_absolute`
leaves the cursor. -/
def server_cursor_motion (x y : ℚ) (time : Nat) (node : Option wlr_scene_node)
    (s : pwc_server) : Option pwc_server :=
  process_cursor_motion time node { s with cursor_x := x, cursor_y := y }

/-- The `struct wlr_pointer_button_event` of wlroots. -/
structure wlr_pointer_button_event where
  time_msec : Nat
  button : Nat
  state : Nat
  deriving DecidableEq, Repr

/-- The handler `server_cursor_button` (lines 405-422); `node` is the answer of
`wlr_scene_node_at` at the cursor position. -/
def server_cursor_button (event : wlr_pointer_button_event) (node : Option wlr_scene_node)
    (s : pwc_server) : pwc_server :=
  let s1 := emit (Call.seat_pointer_notify_button event.time_msec event.button event.state) s
  if event.state = WL_POINTER_BUTTON_STATE_RELEASED then reset_cursor_mode s1
  else focus_toplevel (desktop_toplevel_at node).1 s1

/-! ## Toplevel handlers (lines 527-663) -/

/-- The handler `xdg_toplevel_map` (lines 527-532). -/
def xdg_toplevel_map (listener : Ptr) (s : pwc_server) : Option pwc_server :=
  match as_toplevel (wl_container_of listener toplevel_member.map) with
  | none => none
  | some toplevel => some (focus_toplevel (some toplevel) (wl_list_insert toplevel s))

/-- The handler `xdg_toplevel_unmap` (lines 534-540).  Line 536 recovers the
toplevel with the member `map`. -/
def xdg_toplevel_unmap (listener : Ptr) (s : pwc_server) : Option pwc_server :=
  match as_toplevel (wl_container_of listener toplevel_member.map) with
  | none => none
  | some toplevel =>
    let s1 := if s.grabbed_toplevel = some toplevel then reset_cursor_mode s else s
    some (wl_list_remove toplevel s1)

/-- The handler `xdg_toplevel_commit` (lines 542-551); `initial_commit` is the
flag `toplevel->xdg_toplevel->base->initial_commit`. -/
def xdg_toplevel_commit (listener : Ptr) (initial_commit : Bool) (s : pwc_server) :
    Option pwc_server :=
  match as_toplevel (wl_container_of listener toplevel_member.commit) with
  | none => none
  | some toplevel =>
    if initial_commit then some (emit (Call.xdg_toplevel_set_size toplevel 0 0) s) else some s

/-- The listener members of `struct pwc_toplevel` that `xdg_toplevel_destroy`
unlinks (lines 557-564), in that order. -/
def destroy_unlinks : List toplevel_member :=
  [toplevel_member.map, toplevel_member.unmap, toplevel_member.commit, toplevel_member.destroy,
   toplevel_member.request_move, toplevel_member.request_resize,
   toplevel_member.request_maximize, toplevel_member.request_fullscreen]

/-- The handler `xdg_toplevel_destroy` (lines 553-567). -/
def xdg_toplevel_destroy (listener : Ptr) (s : pwc_server) : Option pwc_server :=
  match as_toplevel (wl_container_of listener toplevel_member.destroy) with
  | none => none
  | some toplevel =>
    some { s with listeners :=
      s.listeners.filter fun l => decide (l.link ∉ destroy_unlinks.map (addr_of toplevel)) }

/-- The function `begin_interactive` (lines 569-596). -/
def begin_interactive (toplevel : Toplevel) (mode : pwc_cursor_mode) (edges : Nat)
    (s : pwc_server) : pwc_server :=
  let s1 := { s with grabbed_toplevel := some toplevel, cursor_mode := mode }
  if mode = PWC_CURSOR_MOVE then
    { s1 with grab_x := double_sub s1.cursor_x ((s1.node_x toplevel : Int) : ℚ),
              grab_y := double_sub s1.cursor_y ((s1.node_y toplevel : Int) : ℚ) }
  else
    let geo_box := s1.geometry toplevel
    let border_x : ℚ :=
      (((s1.node_x toplevel + geo_box.x) +
        (if edges &&& WLR_EDGE_RIGHT ≠ 0 then geo_box.width else 0) : Int) : ℚ)
    let border_y : ℚ :=
      (((s1.node_y toplevel + geo_box.y) +
        (if edges &&& WLR_EDGE_BOTTOM ≠ 0 then geo_box.height else 0) : Int) : ℚ)
    { s1 with grab_x := double_sub s1.cursor_x border_x,
              grab_y := double_sub s1.cursor_y border_y,
              grab_geobox := { geo_box with x := geo_box.x + s1.node_x toplevel,
                                            y := geo_box.y + s1.node_y toplevel },
              resize_edges := edges }

/-- The handler `xdg_toplevel_request_move` (lines 598-604). -/
def xdg_toplevel_request_move (listener : Ptr) (s : pwc_server) : Option pwc_server :=
  match as_toplevel (wl_container_of listener toplevel_member.request_move) with
  | none => none
  | some toplevel => some (begin_interactive toplevel PWC_CURSOR_MOVE 0 s)

/-- The handler `xdg_toplevel_request_resize` (lines 606-611); `edges` is
`event->edges`. -/
def xdg_toplevel_request_resize (listener : Ptr) (edges : Nat) (s : pwc_server) :
    Option pwc_server :=
  match as_toplevel (wl_container_of listener toplevel_member.request_resize) with
  | none => none
  | some toplevel => some (begin_interactive toplevel PWC_CURSOR_RESIZE edges s)

/-- The handler `xdg_toplevel_request_maximize` (lines 613-619).  Line 615
recovers the toplevel with the member `request_resize`; `initialized` is the
flag `toplevel->xdg_toplevel->base->initialized`. -/
def xdg_toplevel_request_maximize (listener : Ptr) (initialized : Bool) (s : pwc_server) :
    Option pwc_server :=
  match as_toplevel (wl_container_of listener toplevel_member.request_resize) with
  | none => none
  | some toplevel =>
    if initialized then some (emit (Call.xdg_surface_schedule_configure toplevel) s) else some s

/-- The handler `xdg_toplevel_request_fullscreen` (lines 621-627). -/
def xdg_toplevel_request_fullscreen (listener : Ptr) (initialized : Bool) (s : pwc_server) :
    Option pwc_server :=
  match as_toplevel (wl_container_of listener toplevel_member.request_fullscreen) with
  | none => none
  | some toplevel =>
    if initialized then some (emit (Call.xdg_surface_schedule_configure toplevel) s) else some s

/-- The libwayland `wl_signal_add`: the listener is appended to the listeners
of the signal. -/
def wl_signal_add (emitter : Toplevel) (signal : toplevel_signal) (link : Ptr)
    (notify : toplevel_notify) (s : pwc_server) : pwc_server :=
  { s with listeners :=
      s.listeners ++ [{ emitter := emitter, signal := signal, link := link, notify := notify }] }

/-- The handler `server_new_xdg_toplevel` (lines 629-663); `toplevel` is the
allocation that `calloc` returns. -/
def server_new_xdg_toplevel (toplevel : Toplevel) (s : pwc_server) : pwc_server :=
  let s := wl_signal_add toplevel toplevel_signal.surface_map
    (addr_of toplevel toplevel_member.map) toplevel_notify.xdg_toplevel_map s
  let s := wl_signal_add toplevel toplevel_signal.surface_unmap
    (addr_of toplevel toplevel_member.unmap) toplevel_notify.xdg_toplevel_unmap s
  let s := wl_signal_add toplevel toplevel_signal.surface_commit
    (addr_of toplevel toplevel_member.commit) toplevel_notify.xdg_toplevel_commit s
  let s := wl_signal_add toplevel toplevel_signal.surface_destroy
    (addr_of toplevel toplevel_member.destroy) toplevel_notify.xdg_toplevel_destroy s
  let s := wl_signal_add toplevel toplevel_signal.request_move
    (addr_of toplevel toplevel_member.request_move) toplevel_notify.xdg_toplevel_request_move s
  let s := wl_signal_add toplevel toplevel_signal.request_resize
    (addr_of toplevel toplevel_member.request_resize) toplevel_notify.xdg_toplevel_request_resize s
  let s := wl_signal_add toplevel toplevel_signal.request_maximize
    (addr_of toplevel toplevel_member.request_maximize)
    toplevel_notify.xdg_toplevel_request_maximize s
  wl_signal_add toplevel toplevel_signal.request_fullscreen
    (addr_of toplevel toplevel_member.request_fullscreen)
    toplevel_notify.xdg_toplevel_request_fullscreen s


/-! ## Outputs, keyboards and popups (lines 201-238, 462-525, 665-707)

Each handler of these objects recovers its object with `wl_container_of` on the
member it is registered on, so the handlers below receive the object itself. -/

/-- The listener members that `server_new_output` registers (lines 503-512), in
that order. -/
def output_registers : List output_member :=
  [output_member.frame, output_member.request_state, output_member.destroy]

/-- The listener members that `output_destroy` unlinks (lines 465-467), in that
order. -/
def output_unlinks : List output_member :=
  [output_member.frame, output_member.request_state, output_member.destroy]

/-- The handler `server_new_output` (lines 472-525); `mode` is the answer of
`wlr_output_preferred_mode`, and the `struct pwc_output` that `calloc` returns
is named by its `wlr_output`. -/
def server_new_output (wlr_output : Nat) (mode : Option wlr_output_mode) (s : pwc_server) :
    pwc_server :=
  let s := emit (Call.output_init_render wlr_output) s
  let s := emit (Call.output_commit_state wlr_output true mode) s
  let s := { s with output_listeners :=
    s.output_listeners ++ output_registers.map fun m => (wlr_output, m) }
  let s := { s with outputs := wlr_output :: s.outputs }
  let s := emit (Call.output_layout_add_auto wlr_output)
    { s with output_layout := s.output_layout ++ [wlr_output] }
  let s := emit (Call.scene_output_create wlr_output) s
  emit (Call.scene_output_layout_add_output wlr_output) s

/-- The handler `output_destroy` (lines 462-470). -/
def output_destroy (output : Nat) (s : pwc_server) : pwc_server :=
  { s with
    output_listeners :=
      s.output_listeners.filter fun l => decide (l ∉ output_unlinks.map fun m => (output, m)),
    outputs := s.outputs.erase output }

/-- Modelled from the spec: the part of the hotplug-remove that wlroots carries
out itself, "remove from the layout".  The output layout is state of wlroots;
`wlr_output_layout_add_auto` links the layout to the output, and the teardown of
the output takes it out of the layout again.  The compositor has no code for it. -/
def wlr_output_layout_remove (output : Nat) (s : pwc_server) : pwc_server :=
  { s with output_layout := s.output_layout.filter fun o => decide (o ≠ output) }

/-- Modelled from the spec: the hotplug-remove of an output, "detach from
rendering, remove from the layout, and release tracking".  The destroy signal of
the `wlr_output` runs the handler `output_destroy`, which the compositor
registered on it (lines 510-511), and wlroots then drops the output from the
layout. -/
def output_hotplug_remove (output : Nat) (s : pwc_server) : pwc_server :=
  wlr_output_layout_remove output (output_destroy output s)

/-- The listener members that `server_new_keyboard` registers (lines 227-232), in
that order. -/
def keyboard_registers : List keyboard_member :=
  [keyboard_member.modifiers, keyboard_member.key, keyboard_member.destroy]

/-- The listener members that `keyboard_handle_destroy` unlinks (lines 204-206),
in that order. -/
def keyboard_unlinks : List keyboard_member :=
  [keyboard_member.modifiers, keyboard_member.key, keyboard_member.destroy]

/-- The function `server_new_keyboard` (lines 211-238); the `struct pwc_keyboard`
is named by its `wlr_keyboard`. -/
def server_new_keyboard (wlr_keyboard : Nat) (s : pwc_server) : pwc_server :=
  let s := emit (Call.keyboard_set_keymap wlr_keyboard) s
  let s := emit (Call.keyboard_set_repeat_info wlr_keyboard 25 600) s
  let s := { s with keyboard_listeners :=
    s.keyboard_listeners ++ keyboard_registers.map fun m => (wlr_keyboard, m) }
  let s := wlr_seat_set_keyboard wlr_keyboard s
  { s with keyboards := wlr_keyboard :: s.keyboards }

/-- The handler `keyboard_handle_destroy` (lines 201-209). -/
def keyboard_handle_destroy (keyboard : Nat) (s : pwc_server) : pwc_server :=
  { s with
    keyboard_listeners :=
      s.keyboard_listeners.filter fun l =>
        decide (l ∉ keyboard_unlinks.map fun m => (keyboard, m)),
    keyboards := s.keyboards.erase keyboard }

/-- The listener members that `server_new_xdg_popup` registers (lines 702-706), in
that order. -/
def popup_registers : List popup_member :=
  [popup_member.commit, popup_member.destroy]

/-- The listener members that `xdg_popup_destroy` unlinks (lines 682-683), in that
order. -/
def popup_unlinks : List popup_member :=
  [popup_member.commit, popup_member.destroy]

/-- The handler `server_new_xdg_popup` (lines 688-707); `parent` is the result of
`wlr_xdg_surface_try_from_wlr_surface (xdg_popup->parent)`, and the handler stops
at the `assert` when there is none. -/
def server_new_xdg_popup (xdg_popup : Nat) (parent : Option Nat) (s : pwc_server) :
    Option pwc_server :=
  match parent with
  | none => none
  | some _ =>
    let s := emit (Call.scene_xdg_surface_create xdg_popup) s
    some { s with popup_listeners :=
      s.popup_listeners ++ popup_registers.map fun m => (xdg_popup, m) }

/-- The handler `xdg_popup_destroy` (lines 678-686). -/
def xdg_popup_destroy (popup : Nat) (s : pwc_server) : pwc_server :=
  { s with popup_listeners :=
      s.popup_listeners.filter fun l => decide (l ∉ popup_unlinks.map fun m => (popup, m)) }

/-- The listener members that `server_new_xdg_toplevel` registers (lines 643-661),
in that order. -/
def toplevel_registers : List toplevel_member :=
  [toplevel_member.map, toplevel_member.unmap, toplevel_member.commit, toplevel_member.destroy,
   toplevel_member.request_move, toplevel_member.request_resize,
   toplevel_member.request_maximize, toplevel_member.request_fullscreen]

/-! ## Start state and event dispatch -/

/-- The server as `main` leaves it before the event loop runs (zero-initialised
struct, `wl_list_init`, `cursor_mode = PWC_CURSOR_PASSTHROUGH`): no toplevel, no
grab, no keyboard on the seat, no keyboard focus. -/
def server_init : pwc_server :=
  { toplevels := [],
    cursor_mode := PWC_CURSOR_PASSTHROUGH,
    grabbed_toplevel := none,
    grab_x := 0,
    grab_y := 0,
    grab_geobox := { x := 0, y := 0, width := 0, height := 0 },
    resize_edges := 0,
    cursor_x := 0,
    cursor_y := 0,
    focused_surface := none,
    seat_keyboard := none,
    activated := fun _ => false,
    node_x := fun _ => 0,
    node_y := fun _ => 0,
    geometry := fun _ => { x := 0, y := 0, width := 0, height := 0 },
    listeners := [],
    calls := [],
    outputs := [],
    output_layout := [],
    output_listeners := [],
    keyboards := [],
    keyboard_listeners := [],
    popup_listeners := [] }

/-- The call of `listener->notify (listener, data)`; `edges` and `flag` are the
parts of `data` and of the xdg surface that the handlers read. -/
def run_listener (l : wl_listener) (edges : Nat) (flag : Bool) (s : pwc_server) :
    Option pwc_server :=
  match l.notify with
  | toplevel_notify.xdg_toplevel_map => xdg_toplevel_map l.link s
  | toplevel_notify.xdg_toplevel_unmap => xdg_toplevel_unmap l.link s
  | toplevel_notify.xdg_toplevel_commit => xdg_toplevel_commit l.link flag s
  | toplevel_notify.xdg_toplevel_destroy => xdg_toplevel_destroy l.link s
  | toplevel_notify.xdg_toplevel_request_move => xdg_toplevel_request_move l.link s
  | toplevel_notify.xdg_toplevel_request_resize => xdg_toplevel_request_resize l.link edges s
  | toplevel_notify.xdg_toplevel_request_maximize => xdg_toplevel_request_maximize l.link flag s
  | toplevel_notify.xdg_toplevel_request_fullscreen =>
    xdg_toplevel_request_fullscreen l.link flag s

/-- The libwayland `wl_signal_emit`: every listener added to the signal is
notified, in the order of registration. -/
def wl_signal_emit (emitter : Toplevel) (signal : toplevel_signal) (edges : Nat) (flag : Bool)
    (s : pwc_server) : Option pwc_server :=
  (s.listeners.filter fun l => decide (l.emitter = emitter ∧ l.signal = signal)).foldlM
    (fun acc l => run_listener l edges flag acc) s

/-- The events of the display loop that the window and input core handles. -/
inductive Event where
  /-- The xdg shell announces a new toplevel; `toplevel` is the fresh allocation. -/
  | new_xdg_toplevel (toplevel : Toplevel)
  /-- The surface of the toplevel is mapped. -/
  | map (toplevel : Toplevel)
  /-- The surface of the toplevel is unmapped. -/
  | unmap (toplevel : Toplevel)
  /-- The client of the toplevel asks for an interactive move. -/
  | request_move (toplevel : Toplevel)
  /-- The client of the toplevel asks for an interactive resize. -/
  | request_resize (toplevel : Toplevel) (edges : Nat)
  /-- A pointer button changes state; `node` is the scene node under the cursor. -/
  | cursor_button (event : wlr_pointer_button_event) (node : Option wlr_scene_node)
  /-- The pointer moves the cursor to `(x, y)`. -/
  | cursor_motion (x y : ℚ) (time : Nat) (node : Option wlr_scene_node)
  /-- A key of a keyboard changes state. -/
  | key (keyboard : pwc_keyboard) (event : wlr_keyboard_key_event)

/-- One turn of the event loop: the handler registered for the event runs to
completion. -/
def dispatch (e : Event) (s : pwc_server) : Option pwc_server :=
  match e with
  | Event.new_xdg_toplevel toplevel => some (server_new_xdg_toplevel toplevel s)
  | Event.map toplevel => wl_signal_emit toplevel toplevel_signal.surface_map 0 false s
  | Event.unmap toplevel => wl_signal_emit toplevel toplevel_signal.surface_unmap 0 false s
  | Event.request_move toplevel => wl_signal_emit toplevel toplevel_signal.request_move 0 false s
  | Event.request_resize toplevel edges =>
    wl_signal_emit toplevel toplevel_signal.request_resize edges false s
  | Event.cursor_button event node => some (server_cursor_button event node s)
  | Event.cursor_motion x y time node => server_cursor_motion x y time node s
  | Event.key keyboard event => some (keyboard_handle_key keyboard event s)

/-- The event loop on a finite sequence of events, oldest first. -/
def run (events : List Event) (s : pwc_server) : Option pwc_server :=
  events.foldlM (fun acc e => dispatch e acc) s

/-! ## Reachable states and example states -/

/-- The start condition of the event loop: empty registry, passthrough mode, no
grab, no keyboard focus, no listener of any toplevel. -/
def is_start (s : pwc_server) : Prop :=
  s.toplevels = [] ∧ s.cursor_mode = PWC_CURSOR_PASSTHROUGH ∧ s.grabbed_toplevel = none ∧
    s.focused_surface = none ∧ s.listeners = []

/-- Events admitted by the amended invariant: no unmap, and a move or resize
request only from a toplevel that is in the registry. -/
def request_from_mapped (s : pwc_server) : Event → Bool
  | Event.unmap _ => false
  | Event.request_move toplevel => decide (toplevel ∈ s.toplevels)
  | Event.request_resize toplevel _ => decide (toplevel ∈ s.toplevels)
  | _ => true

/-- States reached from `s0` by handling events admitted by `request_from_mapped`. -/
inductive reachable_mapped (s0 : pwc_server) : pwc_server → Prop where
  | start : reachable_mapped s0 s0
  | step (s s1 : pwc_server) (e : Event) (hs : reachable_mapped s0 s)
      (he : request_from_mapped s e = true) (hd : dispatch e s = some s1) :
      reachable_mapped s0 s1

/-- The grabbed toplevel, if any, and the toplevel that holds keyboard focus, if
any, are in the registry. -/
def grab_and_focus_mapped (s : pwc_server) : Prop :=
  (∀ t, s.grabbed_toplevel = some t → t ∈ s.toplevels) ∧
    (∀ t, s.focused_surface = some (Surface.xdg t) → t ∈ s.toplevels)

/-- The eight listeners that `server_new_xdg_toplevel` registers for a toplevel. -/
def toplevel_listeners (t : Toplevel) : List wl_listener :=
  [{ emitter := t, signal := toplevel_signal.surface_map,
     link := addr_of t toplevel_member.map, notify := toplevel_notify.xdg_toplevel_map },
   { emitter := t, signal := toplevel_signal.surface_unmap,
     link := addr_of t toplevel_member.unmap, notify := toplevel_notify.xdg_toplevel_unmap },
   { emitter := t, signal := toplevel_signal.surface_commit,
     link := addr_of t toplevel_member.commit, notify := toplevel_notify.xdg_toplevel_commit },
   { emitter := t, signal := toplevel_signal.surface_destroy,
     link := addr_of t toplevel_member.destroy, notify := toplevel_notify.xdg_toplevel_destroy },
   { emitter := t, signal := toplevel_signal.request_move,
     link := addr_of t toplevel_member.request_move,
     notify := toplevel_notify.xdg_toplevel_request_move },
   { emitter := t, signal := toplevel_signal.request_resize,
     link := addr_of t toplevel_member.request_resize,
     notify := toplevel_notify.xdg_toplevel_request_resize },
   { emitter := t, signal := toplevel_signal.request_maximize,
     link := addr_of t toplevel_member.request_maximize,
     notify := toplevel_notify.xdg_toplevel_request_maximize },
   { emitter := t, signal := toplevel_signal.request_fullscreen,
     link := addr_of t toplevel_member.request_fullscreen,
     notify := toplevel_notify.xdg_toplevel_request_fullscreen }]

/-- Every registered listener is one of those of `server_new_xdg_toplevel`. -/
def listeners_registered (s : pwc_server) : Prop :=
  ∀ l ∈ s.listeners, l ∈ toplevel_listeners l.emitter

/-- The registry invariant together with the shape of the listener list. -/
def mapped_inv (s : pwc_server) : Prop :=
  listeners_registered s ∧ grab_and_focus_mapped s

/-- Example state: from the start state, with no keyboard on the seat, toplevel 1
has been mapped (`xdg_toplevel_map`) and toplevel 2 has just been inserted by
its own map handler, which is about to call `focus_toplevel`. -/
def no_keyboard_example : pwc_server :=
  wl_list_insert 2 (focus_toplevel (some 1) (wl_list_insert 1 server_init))

/-- Example state: toplevels 2 and 1 mapped, a keyboard on the seat, toplevel 1
focused and activated. -/
def focus_example : pwc_server :=
  { server_init with
    toplevels := [2, 1],
    seat_keyboard := some 0,
    focused_surface := some (Surface.xdg 1),
    activated := fun t => decide (t = 1) }

/-- Example state: toplevel 1 mapped at node position (2, 2), cursor at (10, 10). -/
def move_base_example : pwc_server :=
  { server_init with
    toplevels := [1],
    cursor_x := 10,
    cursor_y := 10,
    node_x := fun _ => 2,
    node_y := fun _ => 2 }

/-- Example state: interactive move of toplevel 1 begun in `move_base_example`. -/
def move_example : pwc_server :=
  begin_interactive 1 PWC_CURSOR_MOVE 0 move_base_example

/-- Example state: toplevel 1 created and mapped from the start state, then an
interactive move of toplevel 1 begun. -/
def grab_example : pwc_server :=
  begin_interactive 1 PWC_CURSOR_MOVE 0
    (focus_toplevel (some 1) (wl_list_insert 1 (server_new_xdg_toplevel 1 server_init)))

/-- Example state: toplevel 1 at node position (2, 2), cursor at (10.5, 10),
interactive move of toplevel 1 begun there. -/
def fractional_move_example : pwc_server :=
  begin_interactive 1 PWC_CURSOR_MOVE 0
    { server_init with
      toplevels := [1],
      cursor_x := 21 / 2,
      cursor_y := 10,
      node_x := fun _ => 2,
      node_y := fun _ => 2 }

/-- Example state: toplevel 1 at node position (-4, 0), the cursor at (0.1, 0),
where 0.1 is the `double` of that literal, `3602879701896397 / 2 ^ 55`;
interactive move of toplevel 1 begun there. -/
def tenth_move_example : pwc_server :=
  begin_interactive 1 PWC_CURSOR_MOVE 0
    { server_init with
      toplevels := [1],
      cursor_x := 3602879701896397 / 2 ^ 55,
      cursor_y := 0,
      node_x := fun _ => -4,
      node_y := fun _ => 0 }

/-- Example state: resize grab of toplevel 1 with edges right and bottom on the
box `[x=0, y=0, w=100, h=50]`, the cursor at (-30, 20). -/
def resize_example : pwc_server :=
  { server_init with
    toplevels := [1],
    cursor_mode := PWC_CURSOR_RESIZE,
    grabbed_toplevel := some 1,
    grab_geobox := { x := 0, y := 0, width := 100, height := 50 },
    resize_edges := WLR_EDGE_RIGHT ||| WLR_EDGE_BOTTOM,
    cursor_x := -30,
    cursor_y := 20 }

/-- Example keyboard: Alt is held and the key resolves to the two keysyms
Escape and `a` (0x61). -/
def two_sym_keyboard : pwc_keyboard :=
  { wlr_keyboard := 0,
    modifiers := WLR_MODIFIER_ALT,
    xkb_state_key_get_syms := fun _ => [XKB_KEY_Escape, 0x61] }

/-- Example keyboard: no modifier is held and the key resolves to Escape. -/
def plain_keyboard : pwc_keyboard :=
  { wlr_keyboard := 0,
    modifiers := 0,
    xkb_state_key_get_syms := fun _ => [XKB_KEY_Escape] }

/-- Example state: the start state after the first keyboard (number 0) has been
attached with `server_new_keyboard`. -/
def keyboard_start : pwc_server :=
  server_new_keyboard 0 server_init

/-- Example state: from `keyboard_start`, toplevel 1 then toplevel 2 have been
created and mapped. -/
def two_mapped_example : pwc_server :=
  focus_toplevel (some 2) (wl_list_insert 2 (server_new_xdg_toplevel 2
    (focus_toplevel (some 1) (wl_list_insert 1 (server_new_xdg_toplevel 1 keyboard_start)))))

/-- Example keyboard: Alt is held and the key resolves to F1. -/
def alt_f1_keyboard : pwc_keyboard :=
  { wlr_keyboard := 0,
    modifiers := WLR_MODIFIER_ALT,
    xkb_state_key_get_syms := fun _ => [XKB_KEY_F1] }

/-- Whether a call forwards a pointer event to a client surface (enter, motion
or button notification of the seat). -/
def is_pointer_notification : Call → Bool
  | Call.seat_pointer_notify_enter _ => true
  | Call.seat_pointer_notify_motion _ => true
  | Call.seat_pointer_notify_button _ _ _ => true
  | _ => false

/-- Example state: toplevel 1 at node position (10, 20) with geometry box
`[x=2, y=3, w=100, h=50]`, so with layout box `[12, 23, 100, 50]`, and the cursor
at (115, 80). -/
def resize_base_example : pwc_server :=
  { server_init with
    toplevels := [1],
    cursor_x := 115,
    cursor_y := 80,
    node_x := fun _ => 10,
    node_y := fun _ => 20,
    geometry := fun _ => { x := 2, y := 3, width := 100, height := 50 } }

/-- A cursor mode of move or resize comes with a grabbed toplevel. -/
def grab_present (s : pwc_server) : Prop :=
  (s.cursor_mode = PWC_CURSOR_MOVE ∨ s.cursor_mode = PWC_CURSOR_RESIZE) →
    ∃ t, s.grabbed_toplevel = some t

/-- Left edge of the geometry box of a toplevel, in layout coordinates. -/
def layout_left (s : pwc_server) (t : Toplevel) : Int :=
  s.node_x t + (s.geometry t).x

/-- Right edge of the geometry box of a toplevel, in layout coordinates. -/
def layout_right (s : pwc_server) (t : Toplevel) : Int :=
  layout_left s t + (s.geometry t).width

/-- Top edge of the geometry box of a toplevel, in layout coordinates. -/
def layout_top (s : pwc_server) (t : Toplevel) : Int :=
  s.node_y t + (s.geometry t).y

/-- Bottom edge of the geometry box of a toplevel, in layout coordinates. -/
def layout_bottom (s : pwc_server) (t : Toplevel) : Int :=
  layout_top s t + (s.geometry t).height

/-- The cycle-focus command: the state after `handle_keybindings` on F1. -/
def cycle_focus (s : pwc_server) : pwc_server :=
  (handle_keybindings s XKB_KEY_F1).1

/-- The states in which the cycle-focus command is repeated: the registry holds
two or more pairwise distinct toplevels, a toplevel of the registry that holds
keyboard focus is its head, and the seat has a keyboard unless no toplevel of
the registry holds keyboard focus. -/
def cycle_ready (s : pwc_server) : Prop :=
  2 ≤ s.toplevels.length ∧ s.toplevels.Nodup ∧
    (∀ t ∈ s.toplevels, s.focused_surface = some (Surface.xdg t) →
      s.toplevels.head? = some t) ∧
    (s.seat_keyboard ≠ none ∨
      ∀ t ∈ s.toplevels, s.focused_surface ≠ some (Surface.xdg t))

/-- Example state: registry `[1, 2]`, toplevel 1 (the head) holds keyboard focus
and is activated, and the seat has no keyboard. -/
def stale_focus_example : pwc_server :=
  { server_init with
    toplevels := [1, 2],
    focused_surface := some (Surface.xdg 1),
    activated := fun t => decide (t = 1) }

/-- Example state: registry `[1, 2, 3]`, toplevel 1 (the head) holds keyboard
focus and is activated, keyboard 0 is on the seat. -/
def three_mapped_example : pwc_server :=
  { server_init with
    toplevels := [1, 2, 3],
    seat_keyboard := some 0,
    focused_surface := some (Surface.xdg 1),
    activated := fun t => decide (t = 1) }

/-! ## Focus: theorems -/

/-- The calls that one `focus_toplevel (W)` makes when `W` is not focused. -/
theorem focus_toplevel_calls (s : pwc_server) (W : Toplevel)
    (hW : s.focused_surface ≠ some (Surface.xdg W)) :
    (focus_toplevel (some W) s).calls = s.calls ++
      ((match s.focused_surface with
        | some (Surface.xdg p) => [Call.xdg_toplevel_set_activated p false]
        | _ => []) ++
       [Call.scene_node_raise_to_top W, Call.xdg_toplevel_set_activated W true] ++
       (match s.seat_keyboard with
        | some _ => [Call.seat_keyboard_notify_enter (Surface.xdg W)]
        | none => [])) := by
  unfold focus_toplevel
  simp only [if_neg hW]
  rcases hf : s.focused_surface with _ | (p | n) <;> rcases hk : s.seat_keyboard with _ | k <;>
    simp [wlr_xdg_toplevel_try_from_wlr_surface, wlr_xdg_toplevel_set_activated, emit,
      wl_list_remove, wl_list_insert, wlr_seat_keyboard_notify_enter, hk]

/-- The registry after `focus_toplevel (W)` when `W` is not focused. -/
theorem focus_toplevel_toplevels (s : pwc_server) (W : Toplevel)
    (hW : s.focused_surface ≠ some (Surface.xdg W)) :
    (focus_toplevel (some W) s).toplevels = W :: s.toplevels.erase W := by
  unfold focus_toplevel
  simp only [if_neg hW]
  rcases hf : s.focused_surface with _ | (p | n) <;> rcases hk : s.seat_keyboard with _ | k <;>
    simp [wlr_xdg_toplevel_try_from_wlr_surface, wlr_xdg_toplevel_set_activated, emit,
      wl_list_remove, wl_list_insert, wlr_seat_keyboard_notify_enter, hk]

/-- The activation flags after `focus_toplevel (W)` when `W` is not focused. -/
theorem focus_toplevel_activated (s : pwc_server) (W : Toplevel)
    (hW : s.focused_surface ≠ some (Surface.xdg W)) (t : Toplevel) :
    (focus_toplevel (some W) s).activated t =
      if t = W then true
      else if s.focused_surface = some (Surface.xdg t) then false
      else s.activated t := by
  unfold focus_toplevel
  simp only [if_neg hW]
  rcases hf : s.focused_surface with _ | (p | n) <;> rcases hk : s.seat_keyboard with _ | k <;>
    simp [wlr_xdg_toplevel_try_from_wlr_surface, wlr_xdg_toplevel_set_activated, emit,
      wl_list_remove, wl_list_insert, wlr_seat_keyboard_notify_enter, hk, eq_comm]

/-- C1, as stated, fails: with no keyboard on the seat (`wlr_seat_get_keyboard`
returns NULL) the focus slot is never written.  In `no_keyboard_example`
toplevel 1 has been mapped and toplevel 2 is not focused; `focus_toplevel (2)`
leaves both 1 and 2 with their activation flag set and sends no deactivation. -/
theorem focus_toplevel_leaves_two_activated :
    no_keyboard_example.focused_surface ≠ some (Surface.xdg 2) ∧
      (focus_toplevel (some 2) no_keyboard_example).activated 1 = true ∧
      (focus_toplevel (some 2) no_keyboard_example).activated 2 = true ∧
      Call.xdg_toplevel_set_activated 1 false ∉
        (focus_toplevel (some 2) no_keyboard_example).calls := by
  decide

/-- C1 (amended): in a state where only the keyboard-focused window may have its
activation flag set, `focus_toplevel (W)` on a window `W` that is not keyboard
focused puts `W` first in the registry, leaves `W` as the one window whose
activation flag is set, and sends the previously focused window, if any,
exactly one deactivation. -/
theorem focus_toplevel_head_and_sole_activation (s : pwc_server) (W : Toplevel)
    (hW : s.focused_surface ≠ some (Surface.xdg W))
    (hact : ∀ t, s.activated t = true → s.focused_surface = some (Surface.xdg t)) :
    (focus_toplevel (some W) s).toplevels.head? = some W ∧
      (∀ t, (focus_toplevel (some W) s).activated t = true ↔ t = W) ∧
      ∃ sent, (focus_toplevel (some W) s).calls = s.calls ++ sent ∧
        ∀ p, s.focused_surface = some (Surface.xdg p) →
          sent.count (Call.xdg_toplevel_set_activated p false) = 1 := by
  refine ⟨by simp [focus_toplevel_toplevels s W hW], ?_, _, focus_toplevel_calls s W hW, ?_⟩
  · intro t
    rw [focus_toplevel_activated s W hW t]
    by_cases htW : t = W
    · simp [htW]
    · by_cases hft : s.focused_surface = some (Surface.xdg t)
      · simp [htW, hft]
      · have : s.activated t ≠ true := fun h => hft (hact t h)
        simp [htW, hft, this]
  · intro p hp
    have hpW : p ≠ W := fun h => hW (h ▸ hp)
    rcases hk : s.seat_keyboard with _ | k <;> simp [hp, List.count_cons, hpW]

/-- Witness of C1 (amended): toplevel 1 focused with a keyboard on the seat,
toplevel 2 in the registry, `focus_toplevel (2)`. -/
theorem focus_toplevel_head_and_sole_activation_witness :
    focus_example.focused_surface ≠ some (Surface.xdg 2) ∧
      (∀ t, focus_example.activated t = true →
        focus_example.focused_surface = some (Surface.xdg t)) ∧
      ((focus_toplevel (some 2) focus_example).toplevels.head? = some 2 ∧
        (∀ t, (focus_toplevel (some 2) focus_example).activated t = true ↔ t = 2) ∧
        ∃ sent, (focus_toplevel (some 2) focus_example).calls = focus_example.calls ++ sent ∧
          ∀ p, focus_example.focused_surface = some (Surface.xdg p) →
            sent.count (Call.xdg_toplevel_set_activated p false) = 1) :=
  have h1 : focus_example.focused_surface ≠ some (Surface.xdg 2) := by decide
  have h2 : ∀ t, focus_example.activated t = true →
      focus_example.focused_surface = some (Surface.xdg t) := by
    intro t ht
    have h : t = 1 := by simpa [focus_example] using ht
    subst h; rfl
  ⟨h1, h2, focus_toplevel_head_and_sole_activation focus_example 2 h1 h2⟩

/-! ## Registry under map and unmap: theorems -/

/-- The pointer that `wl_container_of` yields for the member the listener is. -/
theorem as_toplevel_container_of (t : Toplevel) (m : toplevel_member) :
    as_toplevel (wl_container_of (addr_of t m) m) = some t := by
  simp [as_toplevel, wl_container_of, addr_of]

/-- C2 (code bug): the run "toplevel 1 created, mapped, unmapped" from the start
state has no defined final state, because the unmap handler recovers its
toplevel with the member `map` from the listener `unmap`; the same run without
the unmap ends with registry `[1]`, so toplevel 1 is never taken out of it. -/
theorem run_map_unmap_undefined :
    (run [Event.new_xdg_toplevel 1, Event.map 1, Event.unmap 1] server_init).isNone = true ∧
      (run [Event.new_xdg_toplevel 1, Event.map 1] server_init).map (fun s => s.toplevels)
        = some [1] := by
  decide

/-- C5 (code bug): for every state and every toplevel `W`, the unmap handler,
called with the listener it is registered on (`&W->unmap`), recovers a pointer
one `struct wl_listener` past the start of `W` and has no defined result: the
cursor mode is not reset and `W` is not unlinked. -/
theorem xdg_toplevel_unmap_displaced (s : pwc_server) (W : Toplevel) :
    wl_container_of (addr_of W toplevel_member.unmap) toplevel_member.map
        = { base := W, off := sizeof_member toplevel_member.map } ∧
      as_toplevel (wl_container_of (addr_of W toplevel_member.unmap) toplevel_member.map) = none ∧
      (xdg_toplevel_unmap (addr_of W toplevel_member.unmap) s).isNone = true := by
  have h : offsetof toplevel_member.unmap - offsetof toplevel_member.map = 3 := by decide
  simp [xdg_toplevel_unmap, as_toplevel, wl_container_of, addr_of, h, sizeof_member]

/-! ## Grab and focus stay in the registry: theorems -/

/-- The keyboard focus after `focus_toplevel (W)` when `W` is not focused: it is
`W` when the seat has a keyboard, and it is unchanged otherwise. -/
theorem focus_toplevel_focused (s : pwc_server) (W : Toplevel)
    (hW : s.focused_surface ≠ some (Surface.xdg W)) :
    (focus_toplevel (some W) s).focused_surface =
      match s.seat_keyboard with
      | some _ => some (Surface.xdg W)
      | none => s.focused_surface := by
  unfold focus_toplevel
  simp only [if_neg hW]
  rcases hf : s.focused_surface with _ | (p | n) <;> rcases hk : s.seat_keyboard with _ | k <;>
    simp [wlr_xdg_toplevel_try_from_wlr_surface, wlr_xdg_toplevel_set_activated, emit,
      wl_list_remove, wl_list_insert, wlr_seat_keyboard_notify_enter, hk, hf]

/-- What `focus_toplevel` changes: the registry keeps its members, the grab and
the listeners are untouched, and a new focus holder is in the registry. -/
theorem focus_toplevel_frame (o : Option Toplevel) (s : pwc_server) :
    (∀ t, t ∈ s.toplevels → t ∈ (focus_toplevel o s).toplevels) ∧
      (focus_toplevel o s).grabbed_toplevel = s.grabbed_toplevel ∧
      (focus_toplevel o s).listeners = s.listeners ∧
      (∀ t, (focus_toplevel o s).focused_surface = some (Surface.xdg t) →
        s.focused_surface = some (Surface.xdg t) ∨ t ∈ (focus_toplevel o s).toplevels) := by
  rcases o with _ | W
  · simp only [focus_toplevel]
    exact ⟨fun _ h => h, trivial, trivial, fun _ h => Or.inl h⟩
  · by_cases hW : s.focused_surface = some (Surface.xdg W)
    · simp only [focus_toplevel, hW, if_true]
      exact ⟨fun _ h => h, trivial, trivial, fun _ h => Or.inl h⟩
    · have hmem : ∀ t, t ∈ s.toplevels → t ∈ (focus_toplevel (some W) s).toplevels := by
        intro t ht
        rw [focus_toplevel_toplevels s W hW]
        by_cases h : t = W
        · simp [h]
        · exact List.mem_cons_of_mem _ ((List.mem_erase_of_ne h).2 ht)
      refine ⟨hmem, ?_, ?_, ?_⟩
      · unfold focus_toplevel
        simp only [if_neg hW]
        rcases hf : s.focused_surface with _ | (p | n) <;>
          rcases hk : s.seat_keyboard with _ | k <;>
          simp [wlr_xdg_toplevel_try_from_wlr_surface, wlr_xdg_toplevel_set_activated, emit,
            wl_list_remove, wl_list_insert, wlr_seat_keyboard_notify_enter, hk]
      · unfold focus_toplevel
        simp only [if_neg hW]
        rcases hf : s.focused_surface with _ | (p | n) <;>
          rcases hk : s.seat_keyboard with _ | k <;>
          simp [wlr_xdg_toplevel_try_from_wlr_surface, wlr_xdg_toplevel_set_activated, emit,
            wl_list_remove, wl_list_insert, wlr_seat_keyboard_notify_enter, hk]
      · intro t ht
        have hfoc : (focus_toplevel (some W) s).focused_surface = s.focused_surface ∨
            (focus_toplevel (some W) s).focused_surface = some (Surface.xdg W) := by
          rw [focus_toplevel_focused s W hW]
          rcases hk : s.seat_keyboard with _ | k <;> simp
        rcases hfoc with h | h
        · left; rw [← h]; exact ht
        · right
          rw [h] at ht
          have htW : t = W := by simpa using ht.symm
          rw [focus_toplevel_toplevels s W hW, htW]
          exact List.mem_cons_self _ _

/-- The invariant `mapped_inv` survives `focus_toplevel`, and so does membership
in the registry. -/
theorem focus_toplevel_inv (o : Option Toplevel) (s : pwc_server) (h : mapped_inv s) :
    mapped_inv (focus_toplevel o s) ∧
      ∀ t, t ∈ s.toplevels → t ∈ (focus_toplevel o s).toplevels := by
  obtain ⟨hmem, hgrab, hlis, hfoc⟩ := focus_toplevel_frame o s
  refine ⟨⟨?_, ?_, ?_⟩, hmem⟩
  · intro l hl
    rw [hlis] at hl
    exact h.1 l hl
  · intro t ht
    rw [hgrab] at ht
    exact hmem t (h.2.1 t ht)
  · intro t ht
    rcases hfoc t ht with h1 | h1
    · exact hmem t (h.2.2 t h1)
    · exact h1

/-- The invariant `mapped_inv` reads four fields only. -/
theorem mapped_inv_of_fields (s s1 : pwc_server) (ht : s1.toplevels = s.toplevels)
    (hg : s1.grabbed_toplevel = s.grabbed_toplevel)
    (hf : s1.focused_surface = s.focused_surface) (hl : s1.listeners = s.listeners)
    (h : mapped_inv s) : mapped_inv s1 := by
  unfold mapped_inv listeners_registered grab_and_focus_mapped at *
  rw [ht, hg, hf, hl]
  exact h

/-- A fold of a fallible step keeps a predicate that every step keeps. -/
theorem foldlM_some_inv {α σ : Type} (P : σ → Prop) (f : σ → α → Option σ) (l : List α)
    (hstep : ∀ a ∈ l, ∀ s s1, P s → f s a = some s1 → P s1) :
    ∀ s s1, P s → l.foldlM f s = some s1 → P s1 := by
  induction l with
  | nil =>
    intro s s1 hP h
    simp at h
    exact h ▸ hP
  | cons a l ih =>
    intro s s1 hP h
    rw [List.foldlM_cons] at h
    rcases hfa : f s a with _ | s2
    · simp [hfa] at h
    · rw [hfa] at h
      exact ih (fun b hb => hstep b (List.mem_cons_of_mem _ hb)) s2 s1
        (hstep a (List.mem_cons_self _ _) s s2 hP hfa) h

/-- The invariant `mapped_inv` survives one keybinding command. -/
theorem handle_keybindings_inv (s : pwc_server) (sym : Nat) (h : mapped_inv s) :
    mapped_inv (handle_keybindings s sym).1 := by
  unfold handle_keybindings
  split
  · exact mapped_inv_of_fields s _ rfl rfl rfl rfl h
  · split
    · split
      · exact h
      · exact (focus_toplevel_inv _ s h).1
    · split
      · exact mapped_inv_of_fields s _ rfl rfl rfl rfl h
      · exact h

/-- The invariant `mapped_inv` survives the keybinding loop. -/
theorem keybindings_loop_inv (syms : List Nat) :
    ∀ (s : pwc_server) (handled : Bool), mapped_inv s →
      mapped_inv (keybindings_loop syms s handled).1 := by
  induction syms with
  | nil => intro s handled h; exact h
  | cons sym syms ih =>
    intro s handled h
    have := ih (handle_keybindings s sym).1 (handle_keybindings s sym).2
      (handle_keybindings_inv s sym h)
    simpa [keybindings_loop] using this

/-- The invariant `mapped_inv` survives `keyboard_handle_key`. -/
theorem keyboard_handle_key_inv (keyboard : pwc_keyboard) (event : wlr_keyboard_key_event)
    (s : pwc_server) (h : mapped_inv s) : mapped_inv (keyboard_handle_key keyboard event s) := by
  unfold keyboard_handle_key
  simp only
  split
  · split
    · exact mapped_inv_of_fields _ _ rfl rfl rfl rfl (keybindings_loop_inv _ s false h)
    · exact keybindings_loop_inv _ s false h
  · split
    · exact mapped_inv_of_fields _ _ rfl rfl rfl rfl h
    · exact h

/-- The invariant `mapped_inv` survives `server_cursor_button`. -/
theorem server_cursor_button_inv (event : wlr_pointer_button_event)
    (node : Option wlr_scene_node) (s : pwc_server) (h : mapped_inv s) :
    mapped_inv (server_cursor_button event node s) := by
  unfold server_cursor_button
  simp only
  split
  · refine ⟨h.1, ?_, h.2.2⟩
    intro t ht
    simp [reset_cursor_mode] at ht
  · exact (focus_toplevel_inv _ _ (mapped_inv_of_fields s (emit _ s) rfl rfl rfl rfl h)).1

/-- The invariant `mapped_inv` survives `server_cursor_motion`. -/
theorem server_cursor_motion_inv (x y : ℚ) (time : Nat) (node : Option wlr_scene_node)
    (s s1 : pwc_server) (h : mapped_inv s) (hs : server_cursor_motion x y time node s = some s1) :
    mapped_inv s1 := by
  unfold server_cursor_motion process_cursor_motion at hs
  simp only at hs
  split at hs
  · unfold process_cursor_mode at hs
    simp only at hs
    split at hs
    · exact absurd hs (by simp)
    · cases hs
      exact mapped_inv_of_fields s _ rfl rfl rfl rfl h
  · split at hs
    · unfold process_cursor_resize at hs
      simp only at hs
      split at hs
      · exact absurd hs (by simp)
      · cases hs
        exact mapped_inv_of_fields s _ rfl rfl rfl rfl h
    · split at hs
      · cases hs
        split
        · exact mapped_inv_of_fields s _ rfl rfl rfl rfl h
        · exact mapped_inv_of_fields s _ rfl rfl rfl rfl h
      · cases hs
        split
        · exact mapped_inv_of_fields s _ rfl rfl rfl rfl h
        · exact mapped_inv_of_fields s _ rfl rfl rfl rfl h

/-- The listeners after `server_new_xdg_toplevel`. -/
theorem server_new_xdg_toplevel_listeners (t : Toplevel) (s : pwc_server) :
    (server_new_xdg_toplevel t s).listeners = s.listeners ++ toplevel_listeners t := by
  simp [server_new_xdg_toplevel, wl_signal_add, toplevel_listeners]

/-- The invariant `mapped_inv` survives `server_new_xdg_toplevel`. -/
theorem server_new_xdg_toplevel_inv (t : Toplevel) (s : pwc_server) (h : mapped_inv s) :
    mapped_inv (server_new_xdg_toplevel t s) := by
  have ht : (server_new_xdg_toplevel t s).toplevels = s.toplevels := by
    simp [server_new_xdg_toplevel, wl_signal_add]
  have hg : (server_new_xdg_toplevel t s).grabbed_toplevel = s.grabbed_toplevel := by
    simp [server_new_xdg_toplevel, wl_signal_add]
  have hf : (server_new_xdg_toplevel t s).focused_surface = s.focused_surface := by
    simp [server_new_xdg_toplevel, wl_signal_add]
  refine ⟨?_, ?_⟩
  swap
  · unfold grab_and_focus_mapped
    rw [ht, hg, hf]
    exact h.2
  intro l hl
  rw [server_new_xdg_toplevel_listeners] at hl
  rcases List.mem_append.1 hl with h1 | h1
  · exact h.1 l h1
  · have he : l.emitter = t := by
      simp only [toplevel_listeners, List.mem_cons, List.mem_singleton, List.not_mem_nil,
        or_false] at h1
      rcases h1 with h1 | h1 | h1 | h1 | h1 | h1 | h1 | h1 <;>
        exact congrArg wl_listener.emitter h1
    rw [he]; exact h1

/-- A registered listener of a signal has the address and the notify function
that `server_new_xdg_toplevel` gave it. -/
theorem listener_of_signal (l : wl_listener) (h : l ∈ toplevel_listeners l.emitter) :
    (l.signal = toplevel_signal.surface_map →
        l.link = addr_of l.emitter toplevel_member.map ∧
          l.notify = toplevel_notify.xdg_toplevel_map) ∧
      (l.signal = toplevel_signal.request_move →
        l.link = addr_of l.emitter toplevel_member.request_move ∧
          l.notify = toplevel_notify.xdg_toplevel_request_move) ∧
      (l.signal = toplevel_signal.request_resize →
        l.link = addr_of l.emitter toplevel_member.request_resize ∧
          l.notify = toplevel_notify.xdg_toplevel_request_resize) := by
  simp only [toplevel_listeners, List.mem_cons, List.mem_singleton, List.not_mem_nil,
    or_false] at h
  rcases h with h | h | h | h | h | h | h | h <;>
    (have hs := congrArg wl_listener.signal h
     have hl := congrArg wl_listener.link h
     have hn := congrArg wl_listener.notify h
     simp only at hs hl hn
     simp [hs, hl, hn])

/-- What `begin_interactive` leaves alone, and the grab it records. -/
theorem begin_interactive_fields (t : Toplevel) (mode : pwc_cursor_mode) (edges : Nat)
    (s : pwc_server) :
    (begin_interactive t mode edges s).toplevels = s.toplevels ∧
      (begin_interactive t mode edges s).focused_surface = s.focused_surface ∧
      (begin_interactive t mode edges s).listeners = s.listeners ∧
      (begin_interactive t mode edges s).grabbed_toplevel = some t ∧
      (begin_interactive t mode edges s).cursor_mode = mode := by
  unfold begin_interactive
  simp only
  split <;> exact ⟨rfl, rfl, rfl, rfl, rfl⟩

/-- The invariant `mapped_inv` survives `begin_interactive` on a registry member. -/
theorem begin_interactive_inv (t : Toplevel) (mode : pwc_cursor_mode) (edges : Nat)
    (s : pwc_server) (h : mapped_inv s ∧ t ∈ s.toplevels) :
    mapped_inv (begin_interactive t mode edges s) ∧
      t ∈ (begin_interactive t mode edges s).toplevels := by
  obtain ⟨ht, hf, hl, hg, _⟩ := begin_interactive_fields t mode edges s
  refine ⟨⟨?_, ?_, ?_⟩, ht ▸ h.2⟩
  · intro l hm
    rw [hl] at hm
    exact h.1.1 l hm
  · intro u hu
    rw [hg] at hu
    rw [ht]
    exact (Option.some.inj hu) ▸ h.2
  · intro u hu
    rw [hf] at hu
    rw [ht]
    exact h.1.2.2 u hu

/-- The invariant `mapped_inv` survives the map handler. -/
theorem xdg_toplevel_map_inv (t : Toplevel) (s s1 : pwc_server) (h : mapped_inv s)
    (hs : xdg_toplevel_map (addr_of t toplevel_member.map) s = some s1) : mapped_inv s1 := by
  unfold xdg_toplevel_map at hs
  rw [as_toplevel_container_of] at hs
  cases hs
  have hins : mapped_inv (wl_list_insert t s) := by
    refine ⟨h.1, ?_, ?_⟩
    · intro u hu
      exact List.mem_cons_of_mem _ (h.2.1 u hu)
    · intro u hu
      exact List.mem_cons_of_mem _ (h.2.2 u hu)
  exact (focus_toplevel_inv (some t) (wl_list_insert t s) hins).1

/-- The invariant `mapped_inv` survives every event admitted by `request_from_mapped`. -/
theorem dispatch_inv (e : Event) (s s1 : pwc_server) (h : mapped_inv s)
    (he : request_from_mapped s e = true) (hd : dispatch e s = some s1) : mapped_inv s1 := by
  cases e with
  | new_xdg_toplevel t =>
    cases hd
    exact server_new_xdg_toplevel_inv t s h
  | map t =>
    refine foldlM_some_inv mapped_inv _ _ ?_ s s1 h hd
    intro l hl a a1 ha hrun
    obtain ⟨hmem, hsel⟩ := List.mem_filter.1 hl
    have hsel2 : l.emitter = t ∧ l.signal = toplevel_signal.surface_map := by simpa using hsel
    obtain ⟨hlink, hnot⟩ := (listener_of_signal l (h.1 l hmem)).1 hsel2.2
    unfold run_listener at hrun
    rw [hnot] at hrun
    simp only at hrun
    rw [hlink] at hrun
    exact xdg_toplevel_map_inv _ a a1 ha hrun
  | unmap t => simp [request_from_mapped] at he
  | request_move t =>
    have ht : t ∈ s.toplevels := by simpa [request_from_mapped] using he
    refine (foldlM_some_inv (fun a => mapped_inv a ∧ t ∈ a.toplevels) _ _ ?_ s s1 ⟨h, ht⟩ hd).1
    intro l hl a a1 ha hrun
    obtain ⟨hmem, hsel⟩ := List.mem_filter.1 hl
    have hsel2 : l.emitter = t ∧ l.signal = toplevel_signal.request_move := by simpa using hsel
    obtain ⟨hlink, hnot⟩ := (listener_of_signal l (h.1 l hmem)).2.1 hsel2.2
    unfold run_listener at hrun
    rw [hnot] at hrun
    simp only at hrun
    rw [hlink, hsel2.1] at hrun
    unfold xdg_toplevel_request_move at hrun
    rw [as_toplevel_container_of] at hrun
    cases hrun
    exact begin_interactive_inv t _ _ a ha
  | request_resize t edges =>
    have ht : t ∈ s.toplevels := by simpa [request_from_mapped] using he
    refine (foldlM_some_inv (fun a => mapped_inv a ∧ t ∈ a.toplevels) _ _ ?_ s s1 ⟨h, ht⟩ hd).1
    intro l hl a a1 ha hrun
    obtain ⟨hmem, hsel⟩ := List.mem_filter.1 hl
    have hsel2 : l.emitter = t ∧ l.signal = toplevel_signal.request_resize := by
      simpa using hsel
    obtain ⟨hlink, hnot⟩ := (listener_of_signal l (h.1 l hmem)).2.2 hsel2.2
    unfold run_listener at hrun
    rw [hnot] at hrun
    simp only at hrun
    rw [hlink, hsel2.1] at hrun
    unfold xdg_toplevel_request_resize at hrun
    rw [as_toplevel_container_of] at hrun
    cases hrun
    exact begin_interactive_inv t _ _ a ha
  | cursor_button event node =>
    cases hd
    exact server_cursor_button_inv event node s h
  | cursor_motion x y time node => exact server_cursor_motion_inv x y time node s s1 h hd
  | key keyboard event =>
    cases hd
    exact keyboard_handle_key_inv keyboard event s h

/-- C3, as stated, fails: a toplevel that was created but never mapped asks for
an interactive move; `begin_interactive` grabs it although the registry is empty. -/
theorem grabbed_toplevel_not_mapped :
    (run [Event.new_xdg_toplevel 1, Event.request_move 1] server_init).map
        (fun s => (s.cursor_mode, s.grabbed_toplevel, s.toplevels))
      = some (PWC_CURSOR_MOVE, some 1, []) := by
  decide

/-- C3 (amended): in every state reached from a start state through the handlers
for surface created, map, move and resize requests issued by toplevels of the
registry, button, motion and key events (unmap events left aside), the grabbed
toplevel, if any, and the keyboard-focused toplevel, if any, are members of
the registry. -/
theorem grab_and_focus_stay_mapped (s0 s : pwc_server) (h0 : is_start s0)
    (hr : reachable_mapped s0 s) : grab_and_focus_mapped s := by
  have hinv : mapped_inv s := by
    induction hr with
    | start =>
      obtain ⟨ht, _, hg, hf, hl⟩ := h0
      refine ⟨?_, ?_, ?_⟩
      · intro l hm
        rw [hl] at hm
        cases hm
      · intro t h
        rw [hg] at h
        cases h
      · intro t h
        rw [hf] at h
        cases h
    | step a a1 e _ he hd ih => exact dispatch_inv e a a1 ih he hd
  exact hinv.2

/-- Witness of C3 (amended): toplevel 1 is created, mapped and then asks for an
interactive move. -/
theorem grab_and_focus_stay_mapped_witness :
    is_start server_init ∧ reachable_mapped server_init grab_example ∧
      grab_and_focus_mapped grab_example :=
  have h0 : is_start server_init := ⟨rfl, rfl, rfl, rfl, rfl⟩
  have hr : reachable_mapped server_init grab_example :=
    reachable_mapped.step
      (focus_toplevel (some 1) (wl_list_insert 1 (server_new_xdg_toplevel 1 server_init)))
      grab_example (Event.request_move 1)
      (reachable_mapped.step (server_new_xdg_toplevel 1 server_init)
        (focus_toplevel (some 1) (wl_list_insert 1 (server_new_xdg_toplevel 1 server_init)))
        (Event.map 1)
        (reachable_mapped.step server_init (server_new_xdg_toplevel 1 server_init)
          (Event.new_xdg_toplevel 1) reachable_mapped.start rfl rfl)
        rfl rfl)
      (by decide) rfl
  ⟨h0, hr, grab_and_focus_stay_mapped server_init grab_example h0 hr⟩

/-! ## Cursor interaction: theorems -/

/-- C4: whatever the cursor mode and the grabbed toplevel were, after
`server_cursor_button` handles a button release the cursor mode is passthrough
and no toplevel is grabbed. -/
theorem server_cursor_button_release_resets (event : wlr_pointer_button_event)
    (node : Option wlr_scene_node) (s : pwc_server)
    (h : event.state = WL_POINTER_BUTTON_STATE_RELEASED) :
    (server_cursor_button event node s).cursor_mode = PWC_CURSOR_PASSTHROUGH ∧
      (server_cursor_button event node s).grabbed_toplevel = none := by
  simp [server_cursor_button, h, reset_cursor_mode]

/-- Witness of C4: a release of button 272 during the interactive move of
`grab_example`. -/
theorem server_cursor_button_release_resets_witness :
    grab_example.cursor_mode = PWC_CURSOR_MOVE ∧ grab_example.grabbed_toplevel = some 1 ∧
      (server_cursor_button { time_msec := 0, button := 272, state := 0 } none
          grab_example).cursor_mode = PWC_CURSOR_PASSTHROUGH ∧
      (server_cursor_button { time_msec := 0, button := 272, state := 0 } none
          grab_example).grabbed_toplevel = none :=
  ⟨by decide, by decide,
    server_cursor_button_release_resets { time_msec := 0, button := 272, state := 0 } none
      grab_example rfl⟩

/-- An integer is its own rounding. -/
theorem round_half_even_intCast (z : Int) : round_half_even (z : ℚ) = z := by
  simp [round_half_even]

/-- Rounding to the nearest integer keeps a value that is not positive from
becoming positive. -/
theorem round_half_even_nonpos (x : ℚ) (h : x ≤ 0) : round_half_even x ≤ 0 := by
  have hf : ⌊x⌋ ≤ 0 := Int.floor_nonpos h
  unfold round_half_even
  split
  · exact hf
  · rename_i h1
    have hlt : ⌊x⌋ < 0 := by
      rcases lt_or_eq_of_le hf with h2 | h2
      · exact h2
      · exfalso
        apply h1
        rw [h2]
        have : x ≤ 0 := h
        have h3 : (0:ℚ) ≤ x := by
          have := Int.floor_le x
          rw [h2] at this
          simpa using this
        have : x = 0 := le_antisymm h h3
        rw [this]; norm_num
    split
    · omega
    · split
      · exact hf
      · omega

/-- The spacing of binary64 values never exceeds one in the modelled range. -/
theorem double_ulp_exp_nonpos (q : ℚ) : double_ulp_exp q ≤ 0 := by
  unfold double_ulp_exp
  omega

/-- A multiple of `2 ^ j` whose magnitude leaves `j` at or above the spacing
exponent is a binary64 value: rounding returns it. -/
theorem double_round_exact (m : Int) (j : Int) (h : double_ulp_exp ((m : ℚ) * (2 : ℚ) ^ j) ≤ j) :
    double_round ((m : ℚ) * (2 : ℚ) ^ j) = (m : ℚ) * (2 : ℚ) ^ j := by
  unfold double_round
  split
  · rename_i h0; rw [h0]
  · obtain ⟨n, hn⟩ := Int.eq_ofNat_of_zero_le (sub_nonneg.2 h)
    have h2 : (m : ℚ) * (2 : ℚ) ^ j / (2 : ℚ) ^ double_ulp_exp ((m : ℚ) * (2 : ℚ) ^ j)
        = ((m * 2 ^ n : Int) : ℚ) := by
      rw [mul_div_assoc, ← zpow_sub₀ (by norm_num : (2:ℚ) ≠ 0), hn]
      push_cast
      rw [zpow_natCast]
    rw [h2, round_half_even_intCast]
    push_cast
    rw [mul_assoc, ← zpow_natCast, ← hn, ← zpow_add₀ (by norm_num : (2:ℚ) ≠ 0)]
    congr 2
    ring

/-- Every integer is a binary64 value of the model. -/
theorem double_round_intCast (n : Int) : double_round (n : ℚ) = n := by
  have h := double_round_exact n 0 (by simpa using double_ulp_exp_nonpos _)
  simpa using h

/-- Rounding to binary64 keeps the sign: a value that is not positive is rounded
to one that is not positive. -/
theorem double_round_nonpos (q : ℚ) (h : q ≤ 0) : double_round q ≤ 0 := by
  unfold double_round
  split
  · exact le_refl _
  · have hp : (0:ℚ) < (2 : ℚ) ^ double_ulp_exp q := zpow_pos (by norm_num) _
    have h1 : q / (2 : ℚ) ^ double_ulp_exp q ≤ 0 := div_nonpos_of_nonpos_of_nonneg h hp.le
    have h2 := round_half_even_nonpos _ h1
    have h3 : ((round_half_even (q / (2 : ℚ) ^ double_ulp_exp q) : Int) : ℚ) ≤ 0 := by
      exact_mod_cast h2
    exact mul_nonpos_of_nonpos_of_nonneg h3 hp.le

/-- The difference of two integer-valued doubles is exact. -/
theorem double_sub_intCast (a b : Int) : double_sub (a : ℚ) (b : ℚ) = ((a - b : Int) : ℚ) := by
  unfold double_sub
  rw [← Int.cast_sub, double_round_intCast]

/-- A difference that is not positive is rounded to a `double` that is not positive. -/
theorem double_sub_nonpos (a b : ℚ) (h : a - b ≤ 0) : double_sub a b ≤ 0 :=
  double_round_nonpos _ h

/-- The binary exponent of a rational lying between two consecutive powers of two. -/
theorem int_log_two_eq (q : ℚ) (e : Int) (h1 : (2 : ℚ) ^ e ≤ |q|) (h2 : |q| < (2 : ℚ) ^ (e + 1)) :
    Int.log 2 |q| = e := by
  have hpos : 0 < |q| := lt_of_lt_of_le (zpow_pos (by norm_num) _) h1
  have ha : e ≤ Int.log 2 |q| := by
    have := (Int.zpow_le_iff_le_log (b := 2) (by norm_num) hpos (x := e)).1 (by exact_mod_cast h1)
    exact this
  have hb : Int.log 2 |q| < e + 1 := by
    have := (Int.lt_zpow_iff_log_lt (b := 2) (by norm_num) hpos (x := e + 1)).1
      (by exact_mod_cast h2)
    exact this
  omega

/-- The rounding of a value whose binary exponent is `e`. -/
theorem double_round_eq (q : ℚ) (e : Int) (h1 : (2 : ℚ) ^ e ≤ |q|)
    (h2 : |q| < (2 : ℚ) ^ (e + 1)) :
    double_round q =
      (round_half_even (q / (2 : ℚ) ^ (max (min (e - 52) 0) (-1074))) : ℚ) *
        (2 : ℚ) ^ (max (min (e - 52) 0) (-1074)) := by
  have hpos : 0 < |q| := lt_of_lt_of_le (zpow_pos (by norm_num) _) h1
  have hq : q ≠ 0 := abs_pos.1 hpos
  unfold double_round double_ulp_exp
  rw [if_neg hq, int_log_two_eq q e h1 h2]

/-- The conversion `double → int` is exact on integral values. -/
theorem double_to_int_intCast (n : Int) : double_to_int (n : ℚ) = n := by
  unfold double_to_int
  split <;> simp

/-- A motion sample in move mode: the one call is the repositioning of the
grabbed toplevel at the `double` difference `cursor - grab`, converted to `int`. -/
theorem server_cursor_motion_move (x y : ℚ) (time : Nat) (node : Option wlr_scene_node)
    (s : pwc_server) (t : Toplevel) (hmode : s.cursor_mode = PWC_CURSOR_MOVE)
    (hgrab : s.grabbed_toplevel = some t) :
    server_cursor_motion x y time node s =
      some (wlr_scene_node_set_position t (double_to_int (double_sub x s.grab_x))
        (double_to_int (double_sub y s.grab_y)) { s with cursor_x := x, cursor_y := y }) := by
  simp [server_cursor_motion, process_cursor_motion, process_cursor_mode, hmode, hgrab]

/-- The fields that `begin_interactive` writes in move mode. -/
theorem begin_interactive_move_eq (t : Toplevel) (s : pwc_server) :
    (begin_interactive t PWC_CURSOR_MOVE 0 s).cursor_mode = PWC_CURSOR_MOVE ∧
      (begin_interactive t PWC_CURSOR_MOVE 0 s).grabbed_toplevel = some t ∧
      (begin_interactive t PWC_CURSOR_MOVE 0 s).grab_x = double_sub s.cursor_x (s.node_x t : ℚ) ∧
      (begin_interactive t PWC_CURSOR_MOVE 0 s).grab_y
        = double_sub s.cursor_y (s.node_y t : ℚ) := by
  simp [begin_interactive]

/-- C6, as stated, fails in two ways.  The window position is an `int`: with the
cursor at (10.5, 10) on a window at (2, 2) the grab offset is (8.5, 8), and a
motion to (50, 20) puts the window at x = 41, not at 50 - 8.5 = 41.5.  And both
subtractions are subtractions of `double`: with the cursor at the `double` 0.1
on a window at x = -4 the recorded offset is the `double` next to 4.1, and a
motion sample at the same cursor position puts the window at x = -3, although
`c' - (c - p)` is exactly -4. -/
theorem move_position_is_truncated :
    fractional_move_example.grab_x = 17 / 2 ∧
      (server_cursor_motion 50 20 0 none fractional_move_example).map
          (fun s => (s.node_x 1, s.node_y 1)) = some (41, 12) ∧
      ((41 : Int) : ℚ) ≠ 50 - (21 / 2 - 2) ∧
      tenth_move_example.grab_x = 2308094809027379 / 2 ^ 49 ∧
      (server_cursor_motion (3602879701896397 / 2 ^ 55) 0 0 none tenth_move_example).map
          (fun s => (s.node_x 1, s.node_y 1)) = some (-3, 0) ∧
      (3602879701896397 / 2 ^ 55 : ℚ) - (3602879701896397 / 2 ^ 55 - (-4)) = -4 := by
  have hg : fractional_move_example.grab_x = 17 / 2 := by
    rw [show fractional_move_example.grab_x = double_sub (21 / 2) ((2 : Int) : ℚ) from rfl]
    unfold double_sub
    rw [double_round_eq _ 3 (by norm_num [abs_of_pos]) (by norm_num [abs_of_pos])]
    norm_num [round_half_even]
  have hy : fractional_move_example.grab_y = 8 := by
    rw [show fractional_move_example.grab_y = double_sub ((10 : Int) : ℚ) ((2 : Int) : ℚ) from
      by simp [fractional_move_example, begin_interactive, server_init]]
    rw [double_sub_intCast]
    norm_num
  have hg2 : tenth_move_example.grab_x = 2308094809027379 / 2 ^ 49 := by
    rw [show tenth_move_example.grab_x
      = double_sub (3602879701896397 / 2 ^ 55) ((-4 : Int) : ℚ) from rfl]
    unfold double_sub
    rw [double_round_eq _ 2 (by norm_num [abs_of_pos]) (by norm_num [abs_of_pos])]
    norm_num [round_half_even]
  have hy2 : tenth_move_example.grab_y = 0 := by
    rw [show tenth_move_example.grab_y = double_sub ((0 : Int) : ℚ) ((0 : Int) : ℚ) from
      by simp [tenth_move_example, begin_interactive, server_init]]
    rw [double_sub_intCast]
    norm_num
  refine ⟨hg, ?_, by norm_num, hg2, ?_, by norm_num⟩
  · rw [server_cursor_motion_move 50 20 0 none fractional_move_example 1 rfl rfl, hg, hy]
    have h1 : double_to_int (double_sub (50 : ℚ) (17 / 2)) = 41 := by
      unfold double_sub
      rw [double_round_eq _ 5 (by norm_num [abs_of_pos]) (by norm_num [abs_of_pos])]
      norm_num [round_half_even, double_to_int]
    have h2 : double_to_int (double_sub (20 : ℚ) 8) = 12 := by
      have h := double_sub_intCast 20 8
      norm_num at h
      rw [h]
      norm_num [double_to_int]
    simp [wlr_scene_node_set_position, emit, h1, h2]
  · rw [server_cursor_motion_move _ 0 0 none tenth_move_example 1 rfl rfl, hg2, hy2]
    have h1 : double_to_int (double_sub (3602879701896397 / 2 ^ 55 : ℚ)
        (2308094809027379 / 2 ^ 49)) = -3 := by
      unfold double_sub
      rw [double_round_eq _ 1 (by norm_num [abs_of_neg]) (by norm_num [abs_of_neg])]
      norm_num [round_half_even, double_to_int]
      rw [Int.ceil_eq_iff]
      norm_num
    have h2 : double_to_int (double_sub (0 : ℚ) 0) = 0 := by
      have h := double_sub_intCast 0 0
      norm_num at h
      rw [h]
      norm_num [double_to_int]
    simp [wlr_scene_node_set_position, emit, h1, h2]

/-- C6 (amended): `begin_interactive` in move mode records as grab offset the
`double` difference `cursor - node position`; a later motion sample to `(x, y)`,
in a state `s2` still in move mode with that grab, makes one call, the
repositioning of the grabbed toplevel at the `double` difference
`(x, y) - grab offset` converted to `int` (truncated toward zero); no size is
requested.  When the two cursor positions are integer-valued the offset is
exactly `c - p` and the new position exactly `c' - (c - p)`. -/
theorem move_records_offset_and_follows (s s2 : pwc_server) (t : Toplevel) (x y : ℚ)
    (time : Nat) (node : Option wlr_scene_node)
    (hmode : s2.cursor_mode = (begin_interactive t PWC_CURSOR_MOVE 0 s).cursor_mode)
    (hgrab : s2.grabbed_toplevel = (begin_interactive t PWC_CURSOR_MOVE 0 s).grabbed_toplevel)
    (hgx : s2.grab_x = (begin_interactive t PWC_CURSOR_MOVE 0 s).grab_x)
    (hgy : s2.grab_y = (begin_interactive t PWC_CURSOR_MOVE 0 s).grab_y) :
    (begin_interactive t PWC_CURSOR_MOVE 0 s).cursor_mode = PWC_CURSOR_MOVE ∧
      (begin_interactive t PWC_CURSOR_MOVE 0 s).grabbed_toplevel = some t ∧
      (begin_interactive t PWC_CURSOR_MOVE 0 s).grab_x = double_sub s.cursor_x (s.node_x t : ℚ) ∧
      (begin_interactive t PWC_CURSOR_MOVE 0 s).grab_y = double_sub s.cursor_y (s.node_y t : ℚ) ∧
      (∀ c : Int, s.cursor_x = (c : ℚ) →
        (begin_interactive t PWC_CURSOR_MOVE 0 s).grab_x = ((c - s.node_x t : Int) : ℚ)) ∧
      (∀ c : Int, s.cursor_y = (c : ℚ) →
        (begin_interactive t PWC_CURSOR_MOVE 0 s).grab_y = ((c - s.node_y t : Int) : ℚ)) ∧
      ∃ s3, server_cursor_motion x y time node s2 = some s3 ∧
        s3.calls = s2.calls ++ [Call.scene_node_set_position t
          (double_to_int (double_sub x (double_sub s.cursor_x (s.node_x t : ℚ))))
          (double_to_int (double_sub y (double_sub s.cursor_y (s.node_y t : ℚ))))] ∧
        s3.node_x t = double_to_int (double_sub x (double_sub s.cursor_x (s.node_x t : ℚ))) ∧
        s3.node_y t = double_to_int (double_sub y (double_sub s.cursor_y (s.node_y t : ℚ))) ∧
        (∀ c c1 : Int, s.cursor_x = (c : ℚ) → x = (c1 : ℚ) →
          s3.node_x t = c1 - (c - s.node_x t)) ∧
        (∀ c c1 : Int, s.cursor_y = (c : ℚ) → y = (c1 : ℚ) →
          s3.node_y t = c1 - (c - s.node_y t)) := by
  obtain ⟨h1, h2, h3, h4⟩ := begin_interactive_move_eq t s
  rw [h1] at hmode
  rw [h2] at hgrab
  rw [h3] at hgx
  rw [h4] at hgy
  refine ⟨h1, h2, h3, h4, ?_, ?_, _, server_cursor_motion_move x y time node s2 t hmode hgrab,
    ?_, ?_, ?_, ?_, ?_⟩
  · intro c hc
    rw [h3, hc, double_sub_intCast]
  · intro c hc
    rw [h4, hc, double_sub_intCast]
  · simp [wlr_scene_node_set_position, emit, hgx, hgy]
  · simp [wlr_scene_node_set_position, emit, hgx]
  · simp [wlr_scene_node_set_position, emit, hgy]
  · intro c c1 hc hx
    simp only [wlr_scene_node_set_position, emit, hgx, if_true]
    rw [hc, hx, double_sub_intCast, double_sub_intCast, double_to_int_intCast]
  · intro c c1 hc hy
    simp only [wlr_scene_node_set_position, emit, hgy, if_true]
    rw [hc, hy, double_sub_intCast, double_sub_intCast, double_to_int_intCast]

/-- Witness of C6 (amended), the example of the specification: a move grab at
cursor (10, 10) on a window at (2, 2) records the offset (8, 8), and a motion to
(50, 20) repositions the window at (42, 12) with that one call. -/
theorem move_records_offset_and_follows_witness :
    move_example.cursor_mode
        = (begin_interactive 1 PWC_CURSOR_MOVE 0 move_base_example).cursor_mode ∧
      move_example.grabbed_toplevel
        = (begin_interactive 1 PWC_CURSOR_MOVE 0 move_base_example).grabbed_toplevel ∧
      move_example.grab_x = 8 ∧ move_example.grab_y = 8 ∧
      ∃ s3, server_cursor_motion 50 20 0 none move_example = some s3 ∧
        s3.calls = [Call.scene_node_set_position 1 42 12] ∧
        s3.node_x 1 = 42 ∧ s3.node_y 1 = 12 := by
  obtain ⟨_, _, _, _, hx, hy, s3, hs3, hc, hpx, hpy, hnx, hny⟩ :=
    move_records_offset_and_follows move_base_example move_example 1 50 20 0 none rfl rfl rfl rfl
  have hcx : move_base_example.cursor_x = ((10 : Int) : ℚ) := by
    norm_num [move_base_example]
  have hcy : move_base_example.cursor_y = ((10 : Int) : ℚ) := by
    norm_num [move_base_example]
  have hx8 : move_example.grab_x = 8 := by
    rw [show move_example.grab_x = _ from hx 10 hcx]
    norm_num [move_base_example]
  have hy8 : move_example.grab_y = 8 := by
    rw [show move_example.grab_y = _ from hy 10 hcy]
    norm_num [move_base_example]
  have h42 : s3.node_x 1 = 42 := by
    rw [hnx 10 50 hcx (by norm_num)]
    norm_num [move_base_example]
  have h12 : s3.node_y 1 = 12 := by
    rw [hny 10 20 hcy (by norm_num)]
    norm_num [move_base_example]
  refine ⟨rfl, rfl, hx8, hy8, s3, hs3, ?_, h42, h12⟩
  rw [hc, ← hpx, ← hpy, h42, h12]
  rfl

/-- The edges that `process_cursor_resize` computes: on an axis with an edge in
the mask the extent is at least 1, and an edge that is not in the mask keeps
its coordinate of the grab box. -/
theorem resize_edges_at_spec (s : pwc_server) :
    ((s.resize_edges &&& WLR_EDGE_LEFT ≠ 0 ∨ s.resize_edges &&& WLR_EDGE_RIGHT ≠ 0) →
        1 ≤ (resize_edges_at s).2.1 - (resize_edges_at s).1) ∧
      ((s.resize_edges &&& WLR_EDGE_TOP ≠ 0 ∨ s.resize_edges &&& WLR_EDGE_BOTTOM ≠ 0) →
        1 ≤ (resize_edges_at s).2.2.2 - (resize_edges_at s).2.2.1) ∧
      (s.resize_edges &&& WLR_EDGE_LEFT = 0 → (resize_edges_at s).1 = s.grab_geobox.x) ∧
      (s.resize_edges &&& WLR_EDGE_RIGHT = 0 →
        (resize_edges_at s).2.1 = s.grab_geobox.x + s.grab_geobox.width) ∧
      (s.resize_edges &&& WLR_EDGE_TOP = 0 → (resize_edges_at s).2.2.1 = s.grab_geobox.y) ∧
      (s.resize_edges &&& WLR_EDGE_BOTTOM = 0 →
        (resize_edges_at s).2.2.2 = s.grab_geobox.y + s.grab_geobox.height) := by
  unfold resize_edges_at
  simp only
  refine ⟨?_, ?_, ?_, ?_, ?_, ?_⟩
  · intro h
    by_cases hl : s.resize_edges &&& WLR_EDGE_LEFT ≠ 0
    · rw [if_pos hl]
      split <;> omega
    · have hr : s.resize_edges &&& WLR_EDGE_RIGHT ≠ 0 := h.resolve_left hl
      rw [if_neg hl, if_pos hr]
      split <;> omega
  · intro h
    by_cases hl : s.resize_edges &&& WLR_EDGE_TOP ≠ 0
    · rw [if_pos hl]
      split <;> omega
    · have hr : s.resize_edges &&& WLR_EDGE_BOTTOM ≠ 0 := h.resolve_left hl
      rw [if_neg hl, if_pos hr]
      split <;> omega
  · intro h
    rw [if_neg (not_not.2 h)]
    split <;> rfl
  · intro h
    split
    · rfl
    · rw [if_neg (not_not.2 h)]
  · intro h
    rw [if_neg (not_not.2 h)]
    split <;> rfl
  · intro h
    split
    · rfl
    · rw [if_neg (not_not.2 h)]

/-- The conversion `double → int` of a value that is not positive is not positive. -/
theorem double_to_int_nonpos (d : ℚ) (h : d ≤ 0) : double_to_int d ≤ 0 := by
  unfold double_to_int
  split
  · have h0 : d = 0 := le_antisymm h (by assumption)
    simp [h0]
  · exact Int.ceil_le.2 (by simpa using h)

/-- The result of `process_cursor_resize` in terms of the edges it computes. -/
theorem process_cursor_resize_eq (s : pwc_server) (t : Toplevel)
    (hgrab : s.grabbed_toplevel = some t) :
    process_cursor_resize s =
      some (emit (Call.xdg_toplevel_set_size t
          ((resize_edges_at s).2.1 - (resize_edges_at s).1)
          ((resize_edges_at s).2.2.2 - (resize_edges_at s).2.2.1))
        (wlr_scene_node_set_position t ((resize_edges_at s).1 - (s.geometry t).x)
          ((resize_edges_at s).2.2.1 - (s.geometry t).y) s)) := by
  simp [process_cursor_resize, hgrab]

/-- C7: `process_cursor_resize` never lets a dragged edge cross its opposite
edge.  With a grabbed toplevel it requests one size `(w, h)`; when the mask has
a horizontal edge `w` is at least 1, when it has a vertical edge `h` is at least
1; and with edges right and bottom on the grab box `[0, 0, 100, 50]`, a cursor
that would take the right edge to x = 0 or beyond gives `w = 1` and `h` at
least 1. -/
theorem process_cursor_resize_min_extent (s : pwc_server) (t : Toplevel)
    (hgrab : s.grabbed_toplevel = some t) :
    ∃ x y w h, process_cursor_resize s =
        some (emit (Call.xdg_toplevel_set_size t w h) (wlr_scene_node_set_position t x y s)) ∧
      ((s.resize_edges &&& WLR_EDGE_LEFT ≠ 0 ∨ s.resize_edges &&& WLR_EDGE_RIGHT ≠ 0) → 1 ≤ w) ∧
      ((s.resize_edges &&& WLR_EDGE_TOP ≠ 0 ∨ s.resize_edges &&& WLR_EDGE_BOTTOM ≠ 0) → 1 ≤ h) ∧
      (s.grab_geobox = { x := 0, y := 0, width := 100, height := 50 } →
        s.resize_edges = WLR_EDGE_RIGHT ||| WLR_EDGE_BOTTOM →
        s.cursor_x - s.grab_x ≤ 0 → w = 1 ∧ 1 ≤ h) := by
  refine ⟨_, _, _, _, process_cursor_resize_eq s t hgrab, (resize_edges_at_spec s).1,
    (resize_edges_at_spec s).2.1, ?_⟩
  intro hbox hedges hcur
  have hv : s.resize_edges &&& WLR_EDGE_TOP ≠ 0 ∨ s.resize_edges &&& WLR_EDGE_BOTTOM ≠ 0 := by
    rw [hedges]; decide
  refine ⟨?_, (resize_edges_at_spec s).2.1 hv⟩
  have hl : ¬ (s.resize_edges &&& WLR_EDGE_LEFT ≠ 0) := by rw [hedges]; decide
  have hr : s.resize_edges &&& WLR_EDGE_RIGHT ≠ 0 := by rw [hedges]; decide
  have hd := double_to_int_nonpos _ (double_sub_nonpos _ _ hcur)
  unfold resize_edges_at
  simp only
  rw [if_neg hl, if_pos hr, hbox]
  simp only
  rw [if_pos hd]
  norm_num

/-- Witness of C7: the example of the specification, `resize_example`, with the
cursor at x = -30. -/
theorem process_cursor_resize_min_extent_witness :
    resize_example.grabbed_toplevel = some 1 ∧
      ∃ x y w h, process_cursor_resize resize_example =
          some (emit (Call.xdg_toplevel_set_size 1 w h)
            (wlr_scene_node_set_position 1 x y resize_example)) ∧
        w = 1 ∧ 1 ≤ h := by
  obtain ⟨x, y, w, h, heq, _, _, hex⟩ := process_cursor_resize_min_extent resize_example 1 rfl
  exact ⟨rfl, x, y, w, h, heq, hex rfl rfl (by norm_num [resize_example, server_init])⟩

/-- C8: `process_cursor_resize` recomputes only edges named in the mask.  With
`(new_left, new_right, new_top, new_bottom)` the edges behind the position and
the size it requests, an edge whose bit is absent from the mask has the
coordinate of the grab box, and on an axis with no bit in the mask the origin and
the requested extent are those of the grab box. -/
theorem process_cursor_resize_frame (s : pwc_server) (t : Toplevel)
    (hgrab : s.grabbed_toplevel = some t) :
    ∃ new_left new_right new_top new_bottom : Int,
      process_cursor_resize s =
        some (emit (Call.xdg_toplevel_set_size t (new_right - new_left) (new_bottom - new_top))
          (wlr_scene_node_set_position t (new_left - (s.geometry t).x)
            (new_top - (s.geometry t).y) s)) ∧
      (s.resize_edges &&& WLR_EDGE_LEFT = 0 → new_left = s.grab_geobox.x) ∧
      (s.resize_edges &&& WLR_EDGE_RIGHT = 0 →
        new_right = s.grab_geobox.x + s.grab_geobox.width) ∧
      (s.resize_edges &&& WLR_EDGE_TOP = 0 → new_top = s.grab_geobox.y) ∧
      (s.resize_edges &&& WLR_EDGE_BOTTOM = 0 →
        new_bottom = s.grab_geobox.y + s.grab_geobox.height) ∧
      (s.resize_edges &&& WLR_EDGE_LEFT = 0 → s.resize_edges &&& WLR_EDGE_RIGHT = 0 →
        new_left = s.grab_geobox.x ∧ new_right - new_left = s.grab_geobox.width) ∧
      (s.resize_edges &&& WLR_EDGE_TOP = 0 → s.resize_edges &&& WLR_EDGE_BOTTOM = 0 →
        new_top = s.grab_geobox.y ∧ new_bottom - new_top = s.grab_geobox.height) := by
  obtain ⟨_, _, hl, hr, ht, hb⟩ := resize_edges_at_spec s
  refine ⟨_, _, _, _, process_cursor_resize_eq s t hgrab, hl, hr, ht, hb, ?_, ?_⟩
  · intro h1 h2
    refine ⟨hl h1, ?_⟩
    rw [hl h1, hr h2]
    omega
  · intro h1 h2
    refine ⟨ht h1, ?_⟩
    rw [ht h1, hb h2]
    omega

/-- Witness of C8: in `resize_example` (edges right and bottom) the left and the
top edge stay where the grab box has them. -/
theorem process_cursor_resize_frame_witness :
    resize_example.grabbed_toplevel = some 1 ∧
      ∃ new_left new_right new_top new_bottom : Int,
        process_cursor_resize resize_example =
          some (emit (Call.xdg_toplevel_set_size 1 (new_right - new_left) (new_bottom - new_top))
            (wlr_scene_node_set_position 1 (new_left - (resize_example.geometry 1).x)
              (new_top - (resize_example.geometry 1).y) resize_example)) ∧
        new_left = 0 ∧ new_top = 0 := by
  obtain ⟨l, r, tp, b, heq, hl, _, ht, _, _, _⟩ := process_cursor_resize_frame resize_example 1 rfl
  exact ⟨rfl, l, r, tp, b, heq, hl (by decide), ht (by decide)⟩

/-! ## Keyboard: theorems -/

/-- C9 (code bug): Alt is held, the key is pressed and resolves to the keysyms
Escape and `a`.  The dispatcher recognises Escape and runs the terminate
command, then `handled` is overwritten by the result for `a`, and the key event
is forwarded to the focused client all the same. -/
theorem keyboard_handle_key_forwards_bound_key :
    two_sym_keyboard.modifiers &&& WLR_MODIFIER_ALT ≠ 0 ∧
      (handle_keybindings focus_example XKB_KEY_Escape).2 = true ∧
      XKB_KEY_Escape ∈ two_sym_keyboard.xkb_state_key_get_syms ((1 + 8) % 2 ^ 32) ∧
      (keyboard_handle_key two_sym_keyboard
          { time_msec := 0, keycode := 1, state := WL_KEYBOARD_KEY_STATE_PRESSED }
          focus_example).calls
        = [Call.display_terminate, Call.seat_set_keyboard 0,
           Call.seat_keyboard_notify_key 0 1 WL_KEYBOARD_KEY_STATE_PRESSED] := by
  decide

/-- C10: on a key release, or when Alt is not held, `keyboard_handle_key` runs no
keybinding command and forwards the key: its only calls are `wlr_seat_set_keyboard`
and `wlr_seat_keyboard_notify_key` with the keycode and state of the event, and
the registry, the keyboard focus, the activation flags, the cursor mode and the
grab are unchanged, whatever keysyms the key resolves to. -/
theorem keyboard_handle_key_passes_through (keyboard : pwc_keyboard)
    (event : wlr_keyboard_key_event) (s : pwc_server)
    (h : event.state = WL_KEYBOARD_KEY_STATE_RELEASED ∨
      keyboard.modifiers &&& WLR_MODIFIER_ALT = 0) :
    (keyboard_handle_key keyboard event s).calls = s.calls ++
        [Call.seat_set_keyboard keyboard.wlr_keyboard,
         Call.seat_keyboard_notify_key event.time_msec event.keycode event.state] ∧
      (keyboard_handle_key keyboard event s).toplevels = s.toplevels ∧
      (keyboard_handle_key keyboard event s).focused_surface = s.focused_surface ∧
      (keyboard_handle_key keyboard event s).activated = s.activated ∧
      (keyboard_handle_key keyboard event s).cursor_mode = s.cursor_mode ∧
      (keyboard_handle_key keyboard event s).grabbed_toplevel = s.grabbed_toplevel := by
  have hc : ¬ (keyboard.modifiers &&& WLR_MODIFIER_ALT ≠ 0 ∧
      event.state = WL_KEYBOARD_KEY_STATE_PRESSED) := by
    rintro ⟨h1, h2⟩
    rcases h with h | h
    · rw [h] at h2
      exact absurd h2 (by decide)
    · exact h1 h
  unfold keyboard_handle_key
  simp only [if_neg hc]
  simp [emit, wlr_seat_set_keyboard]

/-- Witness of C10: Escape pressed with no modifier held, in `focus_example`. -/
theorem keyboard_handle_key_passes_through_witness :
    (handle_keybindings focus_example XKB_KEY_Escape).2 = true ∧
      plain_keyboard.modifiers &&& WLR_MODIFIER_ALT = 0 ∧
      (keyboard_handle_key plain_keyboard { time_msec := 5, keycode := 1, state := 1 }
          focus_example).calls
        = focus_example.calls ++ [Call.seat_set_keyboard plain_keyboard.wlr_keyboard,
            Call.seat_keyboard_notify_key 5 1 1] :=
  ⟨by decide, by decide,
    (keyboard_handle_key_passes_through plain_keyboard
      { time_msec := 5, keycode := 1, state := 1 } focus_example (Or.inr (by decide))).1⟩

/-! ## Cycle focus, no-op focus and raise: theorems -/

/-- C11, as stated, fails: the tail gets keyboard focus only when the seat has a
keyboard.  In `stale_focus_example` the registry `[1, 2]` holds two toplevels,
1 is focused and the seat has no keyboard: the cycle-focus command moves the
tail 2 to the head of the registry and the keyboard focus stays on 1. -/
theorem cycle_focus_tail_not_focused :
    2 ≤ stale_focus_example.toplevels.length ∧
      stale_focus_example.toplevels.getLast? = some 2 ∧
      stale_focus_example.seat_keyboard = none ∧
      (handle_keybindings stale_focus_example XKB_KEY_F1).1.focused_surface
        = some (Surface.xdg 1) ∧
      (handle_keybindings stale_focus_example XKB_KEY_F1).1.focused_surface
        ≠ some (Surface.xdg 2) ∧
      (handle_keybindings stale_focus_example XKB_KEY_F1).1.toplevels = [2, 1] := by
  decide

/-- C11 (amended): the cycle-focus command (F1) leaves the whole state as it is
when the registry holds fewer than two toplevels; with two or more it is exactly
`focus_toplevel` on the tail `W` of the registry, after which `W` holds keyboard
focus when the seat has a keyboard, the keyboard focus is as before when the
seat has none, and the registry is `W` followed by the others when `W` was not
focused.  In particular, with a keyboard attached, mapping 1 and then 2 gives
registry `[2, 1]` with 2 focused, and one Alt+F1 gives registry `[1, 2]` with 1
focused. -/
theorem cycle_focus_focuses_tail (s : pwc_server) :
    (s.toplevels.length < 2 → handle_keybindings s XKB_KEY_F1 = (s, true)) ∧
      (∀ W, 2 ≤ s.toplevels.length → s.toplevels.getLast? = some W →
        handle_keybindings s XKB_KEY_F1 = (focus_toplevel (some W) s, true) ∧
        (s.seat_keyboard ≠ none →
          (handle_keybindings s XKB_KEY_F1).1.focused_surface = some (Surface.xdg W)) ∧
        (s.focused_surface ≠ some (Surface.xdg W) →
          (handle_keybindings s XKB_KEY_F1).1.toplevels = W :: s.toplevels.erase W) ∧
        (s.seat_keyboard = none →
          (handle_keybindings s XKB_KEY_F1).1.focused_surface = s.focused_surface)) ∧
      (run [Event.new_xdg_toplevel 1, Event.map 1, Event.new_xdg_toplevel 2, Event.map 2]
          keyboard_start).map (fun a => (a.toplevels, a.focused_surface))
        = some ([2, 1], some (Surface.xdg 2)) ∧
      (run [Event.new_xdg_toplevel 1, Event.map 1, Event.new_xdg_toplevel 2, Event.map 2,
            Event.key alt_f1_keyboard
              { time_msec := 0, keycode := 59, state := WL_KEYBOARD_KEY_STATE_PRESSED }]
          keyboard_start).map (fun a => (a.toplevels, a.focused_surface))
        = some ([1, 2], some (Surface.xdg 1)) := by
  have hF1 : XKB_KEY_F1 ≠ XKB_KEY_Escape := by decide
  refine ⟨?_, ?_, by decide, by decide⟩
  · intro h
    simp [handle_keybindings, hF1, h]
  · intro W h2 hW
    have hlt : ¬ s.toplevels.length < 2 := by omega
    have heq : handle_keybindings s XKB_KEY_F1 = (focus_toplevel (some W) s, true) := by
      simp [handle_keybindings, hF1, hlt, hW]
    refine ⟨heq, ?_, ?_, ?_⟩
    · intro hk
      rw [heq]
      by_cases hf : s.focused_surface = some (Surface.xdg W)
      · simp [focus_toplevel, hf]
      · rw [focus_toplevel_focused s W hf]
        rcases hs : s.seat_keyboard with _ | k
        · exact absurd hs hk
        · rfl
    · intro hf
      rw [heq]
      exact focus_toplevel_toplevels s W hf
    · intro hk
      rw [heq]
      by_cases hf : s.focused_surface = some (Surface.xdg W)
      · simp [focus_toplevel, hf]
      · rw [focus_toplevel_focused s W hf, hk]

/-- Witness of C11 (amended): Alt+F1 in `two_mapped_example` (registry `[2, 1]`,
toplevel 2 focused, a keyboard on the seat). -/
theorem cycle_focus_focuses_tail_witness :
    2 ≤ two_mapped_example.toplevels.length ∧
      two_mapped_example.toplevels.getLast? = some 1 ∧
      two_mapped_example.seat_keyboard ≠ none ∧
      two_mapped_example.focused_surface ≠ some (Surface.xdg 1) ∧
      (handle_keybindings two_mapped_example XKB_KEY_F1).1.focused_surface
        = some (Surface.xdg 1) ∧
      (handle_keybindings two_mapped_example XKB_KEY_F1).1.toplevels
        = 1 :: two_mapped_example.toplevels.erase 1 :=
  have h := (cycle_focus_focuses_tail two_mapped_example).2.1 1 (by decide) (by decide)
  ⟨by decide, by decide, by decide, by decide, h.2.1 (by decide), h.2.2.1 (by decide)⟩

/-- C12: `focus_toplevel` on a toplevel whose surface already holds keyboard focus
returns the state unchanged: no call is made (no activation, no deactivation),
and the registry and the keyboard focus are as before. -/
theorem focus_toplevel_focused_is_noop (s : pwc_server) (W : Toplevel)
    (h : s.focused_surface = some (Surface.xdg W)) :
    focus_toplevel (some W) s = s ∧
      (focus_toplevel (some W) s).calls = s.calls ∧
      (focus_toplevel (some W) s).toplevels = s.toplevels ∧
      (focus_toplevel (some W) s).focused_surface = s.focused_surface := by
  have heq : focus_toplevel (some W) s = s := by simp [focus_toplevel, h]
  rw [heq]
  exact ⟨rfl, rfl, rfl, rfl⟩

/-- Witness of C12: `focus_toplevel (1)` in `focus_example`, where toplevel 1 is
focused and is not the head of the registry. -/
theorem focus_toplevel_focused_is_noop_witness :
    focus_example.focused_surface = some (Surface.xdg 1) ∧
      focus_example.toplevels = [2, 1] ∧
      focus_toplevel (some 1) focus_example = focus_example ∧
      (focus_toplevel (some 1) focus_example).calls = focus_example.calls ∧
      (focus_toplevel (some 1) focus_example).toplevels = focus_example.toplevels ∧
      (focus_toplevel (some 1) focus_example).focused_surface
        = focus_example.focused_surface :=
  ⟨rfl, rfl, focus_toplevel_focused_is_noop focus_example 1 rfl⟩

/-- C13, as stated, fails: `focus_toplevel (NULL)` returns at once.  In
`focus_example` toplevel 1 holds keyboard focus; a button press where the
hit-test finds nothing leaves toplevel 1 holding it. -/
theorem button_press_on_nothing_keeps_focus :
    (desktop_toplevel_at none).1 = none ∧
      focus_example.focused_surface = some (Surface.xdg 1) ∧
      (server_cursor_button
          { time_msec := 0, button := 272, state := WL_POINTER_BUTTON_STATE_PRESSED } none
          focus_example).focused_surface = some (Surface.xdg 1) := by
  decide

/-- C13 (amended): a pointer button press at a position where the hit-test finds
no toplevel leaves the keyboard focus with whoever held it, changes neither the
registry nor any activation flag, and its only call is the button notification
(no activation is sent). -/
theorem button_press_on_nothing_changes_no_focus (event : wlr_pointer_button_event)
    (node : Option wlr_scene_node) (s : pwc_server)
    (hpress : event.state ≠ WL_POINTER_BUTTON_STATE_RELEASED)
    (hhit : (desktop_toplevel_at node).1 = none) :
    (server_cursor_button event node s).focused_surface = s.focused_surface ∧
      (server_cursor_button event node s).toplevels = s.toplevels ∧
      (server_cursor_button event node s).activated = s.activated ∧
      (server_cursor_button event node s).calls = s.calls ++
        [Call.seat_pointer_notify_button event.time_msec event.button event.state] := by
  simp [server_cursor_button, hpress, hhit, focus_toplevel, emit]

/-- Witness of C13 (amended): a press of button 272 on the bare background in
`focus_example`. -/
theorem button_press_on_nothing_changes_no_focus_witness :
    (1 : Nat) ≠ WL_POINTER_BUTTON_STATE_RELEASED ∧ (desktop_toplevel_at none).1 = none ∧
      (server_cursor_button { time_msec := 0, button := 272, state := 1 } none
          focus_example).focused_surface = focus_example.focused_surface ∧
      (server_cursor_button { time_msec := 0, button := 272, state := 1 } none
          focus_example).toplevels = focus_example.toplevels ∧
      (server_cursor_button { time_msec := 0, button := 272, state := 1 } none
          focus_example).activated = focus_example.activated ∧
      (server_cursor_button { time_msec := 0, button := 272, state := 1 } none
          focus_example).calls = focus_example.calls ++ [Call.seat_pointer_notify_button 0 272 1] :=
  ⟨by decide, rfl,
    button_press_on_nothing_changes_no_focus { time_msec := 0, button := 272, state := 1 } none
      focus_example (by decide) rfl⟩

/-- Erasing one occurrence of `W` does not change the other elements or their order. -/
theorem filter_ne_erase (W : Toplevel) (l : List Toplevel) :
    (l.erase W).filter (fun t => decide (t ≠ W)) = l.filter (fun t => decide (t ≠ W)) := by
  induction l with
  | nil => rfl
  | cons a l ih =>
    by_cases h : a = W
    · subst h
      simp
    · have hb : (a == W) = false := by simpa using h
      rw [List.erase_cons, hb, if_neg (by decide)]
      simp only [List.filter_cons, ih]

/-- C14: for a toplevel `W` of the registry that is not focused, the registry
after `focus_toplevel (W)` is `W` followed by the registry with `W` removed: the
other toplevels keep their relative order, and the registry has the same length
and the same elements as before. -/
theorem focus_toplevel_raises_only (s : pwc_server) (W : Toplevel)
    (hmem : W ∈ s.toplevels) (hW : s.focused_surface ≠ some (Surface.xdg W)) :
    (focus_toplevel (some W) s).toplevels = W :: s.toplevels.erase W ∧
      (focus_toplevel (some W) s).toplevels.filter (fun t => decide (t ≠ W))
        = s.toplevels.filter (fun t => decide (t ≠ W)) ∧
      (focus_toplevel (some W) s).toplevels.length = s.toplevels.length ∧
      (focus_toplevel (some W) s).toplevels.Perm s.toplevels ∧
      (∀ t, t ∈ (focus_toplevel (some W) s).toplevels ↔ t ∈ s.toplevels) := by
  have hperm : (W :: s.toplevels.erase W).Perm s.toplevels := (List.perm_cons_erase hmem).symm
  rw [focus_toplevel_toplevels s W hW]
  refine ⟨rfl, ?_, hperm.length_eq, hperm, fun t => hperm.mem_iff⟩
  simp only [List.filter_cons, filter_ne_erase, ne_eq, not_true_eq_false, decide_False,
    Bool.false_eq_true, if_false]

/-- Witness of C14: raising toplevel 1 in `two_mapped_example` (registry `[2, 1]`,
toplevel 2 focused). -/
theorem focus_toplevel_raises_only_witness :
    (1 : Toplevel) ∈ two_mapped_example.toplevels ∧
      two_mapped_example.focused_surface ≠ some (Surface.xdg 1) ∧
      (focus_toplevel (some 1) two_mapped_example).toplevels
        = 1 :: two_mapped_example.toplevels.erase 1 ∧
      (focus_toplevel (some 1) two_mapped_example).toplevels = [1, 2] :=
  ⟨by decide, by decide,
    (focus_toplevel_raises_only two_mapped_example 1 (by decide) (by decide)).1, by decide⟩

/-! ## Pointer events during a grab: theorems -/

/-- The calls of `focus_toplevel` are appended to the record and none of them is
a pointer notification. -/
theorem focus_toplevel_sends_no_pointer (o : Option Toplevel) (s : pwc_server) :
    ∃ sent, (focus_toplevel o s).calls = s.calls ++ sent ∧
      ∀ c ∈ sent, is_pointer_notification c = false := by
  rcases o with _ | W
  · exact ⟨[], by simp [focus_toplevel], by simp⟩
  · by_cases hW : s.focused_surface = some (Surface.xdg W)
    · exact ⟨[], by simp [focus_toplevel, hW], by simp⟩
    · refine ⟨_, focus_toplevel_calls s W hW, ?_⟩
      rcases hf : s.focused_surface with _ | (p | n) <;>
        rcases hk : s.seat_keyboard with _ | k <;>
        simp [is_pointer_notification]

/-- A motion sample in resize mode: the calls are one repositioning and one size
request for the grabbed toplevel. -/
theorem server_cursor_motion_resize_calls (x y : ℚ) (time : Nat)
    (node : Option wlr_scene_node) (s : pwc_server) (t : Toplevel)
    (hmode : s.cursor_mode = PWC_CURSOR_RESIZE) (hgrab : s.grabbed_toplevel = some t) :
    ∃ s1 px py w h, server_cursor_motion x y time node s = some s1 ∧
      s1.calls = s.calls ++
        [Call.scene_node_set_position t px py, Call.xdg_toplevel_set_size t w h] := by
  have hrun : server_cursor_motion x y time node s =
      process_cursor_resize { s with cursor_x := x, cursor_y := y } := by
    simp [server_cursor_motion, process_cursor_motion, hmode]
  rw [hrun, process_cursor_resize_eq { s with cursor_x := x, cursor_y := y } t hgrab]
  exact ⟨_, _, _, _, _, rfl, List.append_assoc _ _ _⟩

/-- C15 (code bug): `server_cursor_button` calls
`wlr_seat_pointer_notify_button` before it looks at anything else (line 410).
During the interactive move of `grab_example` both a release and a press of
button 272 are forwarded to the seat, while the comment of `begin_interactive`
(lines 570-571) says that the compositor stops propagating pointer events to
clients during a move or resize, and `process_cursor_motion` returns before it
forwards anything (lines 360-361). -/
theorem button_forwarded_during_grab :
    grab_example.cursor_mode = PWC_CURSOR_MOVE ∧
      Call.seat_pointer_notify_button 0 272 WL_POINTER_BUTTON_STATE_RELEASED ∈
        (server_cursor_button
          { time_msec := 0, button := 272, state := WL_POINTER_BUTTON_STATE_RELEASED } none
          grab_example).calls ∧
      Call.seat_pointer_notify_button 0 272 WL_POINTER_BUTTON_STATE_PRESSED ∈
        (server_cursor_button
          { time_msec := 0, button := 272, state := WL_POINTER_BUTTON_STATE_PRESSED } none
          grab_example).calls := by
  decide

/-- The two pointer paths during a grab.  While the cursor mode is move or
resize, with a grabbed toplevel, a pointer motion event forwards no pointer
notification (enter, motion, button) to a client: the calls it makes belong to
the move or resize logic only.  A pointer button event, press or release, makes
the call `wlr_seat_pointer_notify_button` first, and no other pointer
notification. -/
theorem pointer_paths_during_grab (s : pwc_server) (t : Toplevel)
    (hmode : s.cursor_mode = PWC_CURSOR_MOVE ∨ s.cursor_mode = PWC_CURSOR_RESIZE)
    (hgrab : s.grabbed_toplevel = some t) (x y : ℚ) (time : Nat)
    (node : Option wlr_scene_node) (event : wlr_pointer_button_event) :
    (∃ s1 sent, server_cursor_motion x y time node s = some s1 ∧
        s1.calls = s.calls ++ sent ∧ ∀ c ∈ sent, is_pointer_notification c = false) ∧
      ∃ sent, (server_cursor_button event node s).calls = s.calls ++
          Call.seat_pointer_notify_button event.time_msec event.button event.state :: sent ∧
        ∀ c ∈ sent, is_pointer_notification c = false := by
  constructor
  · rcases hmode with hm | hm
    · refine ⟨_, [Call.scene_node_set_position t (double_to_int (double_sub x s.grab_x))
        (double_to_int (double_sub y s.grab_y))],
        server_cursor_motion_move x y time node s t hm hgrab,
        ?_, ?_⟩
      · simp [wlr_scene_node_set_position, emit]
      · simp [is_pointer_notification]
    · obtain ⟨s1, px, py, w, h, hs1, hc⟩ := server_cursor_motion_resize_calls x y time node s t
        hm hgrab
      exact ⟨s1, _, hs1, hc, by simp [is_pointer_notification]⟩
  · unfold server_cursor_button
    simp only
    split
    · exact ⟨[], by simp [reset_cursor_mode, emit], by simp⟩
    · obtain ⟨sent, hs, hn⟩ := focus_toplevel_sends_no_pointer (desktop_toplevel_at node).1
        (emit (Call.seat_pointer_notify_button event.time_msec event.button event.state) s)
      exact ⟨sent, by rw [hs]; simp [emit], hn⟩

/-- The two pointer paths in `grab_example`: a motion to (50, 20) and a release of
button 272 during the interactive move. -/
theorem pointer_paths_during_grab_example :
    (grab_example.cursor_mode = PWC_CURSOR_MOVE ∨ grab_example.cursor_mode = PWC_CURSOR_RESIZE) ∧
      grab_example.grabbed_toplevel = some 1 ∧
      (∃ s1 sent, server_cursor_motion 50 20 0 none grab_example = some s1 ∧
        s1.calls = grab_example.calls ++ sent ∧ ∀ c ∈ sent, is_pointer_notification c = false) ∧
      ∃ sent, (server_cursor_button { time_msec := 0, button := 272, state := 0 } none
          grab_example).calls = grab_example.calls ++
            Call.seat_pointer_notify_button 0 272 0 :: sent ∧
        ∀ c ∈ sent, is_pointer_notification c = false :=
  ⟨Or.inl rfl, rfl,
    pointer_paths_during_grab grab_example 1 (Or.inl rfl) rfl 50 20 0 none
      { time_msec := 0, button := 272, state := 0 }⟩

/-! ## Outputs: theorems -/

/-- The handler `output_destroy` by itself changes neither the output layout nor
the record of calls: taking the output out of the layout is left to wlroots. -/
theorem output_destroy_layout (s : pwc_server) (O : Nat) :
    (output_destroy O s).output_layout = s.output_layout ∧
      (output_destroy O s).calls = s.calls :=
  ⟨rfl, rfl⟩

/-- The handler `output_destroy` removes the listeners of its output and no other. -/
theorem output_destroy_listeners (s : pwc_server) (O : Nat) :
    (output_destroy O s).output_listeners
      = s.output_listeners.filter (fun l => decide (l.1 ≠ O)) := by
  unfold output_destroy
  simp only
  apply List.filter_congr
  intro l _
  rcases l with ⟨o, m⟩
  by_cases h : o = O
  · subst h
    cases m <;> simp [output_unlinks]
  · simp [output_unlinks, h]

/-- C16: for an output `O` that is neither tracked nor in the layout,
`server_new_output` for `O` followed at once by the hotplug-remove of `O` (the
handler `output_destroy`, then the removal from the layout by wlroots) leaves
the tracked output list and the output layout equal to what they were before
the add; no listener of `O` stays registered, and the listeners of the other
outputs are as before. -/
theorem output_add_then_destroy (s : pwc_server) (O : Nat) (mode : Option wlr_output_mode)
    (hO : O ∉ s.outputs) (hL : O ∉ s.output_layout) :
    (server_new_output O mode s).outputs = O :: s.outputs ∧
      (server_new_output O mode s).output_layout = s.output_layout ++ [O] ∧
      (output_hotplug_remove O (server_new_output O mode s)).outputs = s.outputs ∧
      (output_hotplug_remove O (server_new_output O mode s)).output_layout = s.output_layout ∧
      O ∉ (output_hotplug_remove O (server_new_output O mode s)).outputs ∧
      O ∉ (output_hotplug_remove O (server_new_output O mode s)).output_layout ∧
      (∀ l ∈ (output_hotplug_remove O (server_new_output O mode s)).output_listeners,
        l.1 ≠ O) ∧
      (output_hotplug_remove O (server_new_output O mode s)).output_listeners
        = s.output_listeners.filter (fun l => decide (l.1 ≠ O)) := by
  have hl : (output_hotplug_remove O (server_new_output O mode s)).output_listeners
      = s.output_listeners.filter (fun l => decide (l.1 ≠ O)) := by
    show (output_destroy O (server_new_output O mode s)).output_listeners = _
    rw [output_destroy_listeners]
    simp [server_new_output, emit, output_registers]
  have ho : (output_hotplug_remove O (server_new_output O mode s)).outputs = s.outputs := by
    simp [output_hotplug_remove, wlr_output_layout_remove, output_destroy, server_new_output,
      emit]
  have hy : (output_hotplug_remove O (server_new_output O mode s)).output_layout
      = s.output_layout := by
    have hne : ∀ a ∈ s.output_layout, ¬ a = O := fun a ha h => hL (h ▸ ha)
    simpa [output_hotplug_remove, wlr_output_layout_remove, output_destroy, server_new_output,
      emit] using hne
  refine ⟨by simp [server_new_output, emit], by simp [server_new_output, emit], ho, hy,
    by rw [ho]; exact hO, by rw [hy]; exact hL, ?_, hl⟩
  · intro l hl2
    rw [hl] at hl2
    have := (List.mem_filter.1 hl2).2
    simpa using this

/-- Witness of C16: output 7 is added to, and removed from, a server that tracks
output 3 in a layout holding 3: the tracked list and the layout are `[3]` again. -/
theorem output_add_then_destroy_witness :
    (7 : Nat) ∉ (server_new_output 3 none server_init).outputs ∧
      (7 : Nat) ∉ (server_new_output 3 none server_init).output_layout ∧
      (server_new_output 7 none (server_new_output 3 none server_init)).outputs = [7, 3] ∧
      (server_new_output 7 none (server_new_output 3 none server_init)).output_layout
        = [3, 7] ∧
      (output_hotplug_remove 7
          (server_new_output 7 none (server_new_output 3 none server_init))).outputs = [3] ∧
      (output_hotplug_remove 7
          (server_new_output 7 none (server_new_output 3 none server_init))).output_layout
        = [3] :=
  have h := output_add_then_destroy (server_new_output 3 none server_init) 7 none
    (by decide) (by decide)
  ⟨by decide, by decide, by decide, by decide,
    h.2.2.1.trans (by decide), h.2.2.2.1.trans (by decide)⟩

/-! ## Resize grab: theorems -/

/-- What `begin_interactive` records in resize mode. -/
theorem begin_interactive_resize_eq (s : pwc_server) (t : Toplevel) (edges : Nat) :
    (begin_interactive t PWC_CURSOR_RESIZE edges s).cursor_mode = PWC_CURSOR_RESIZE ∧
      (begin_interactive t PWC_CURSOR_RESIZE edges s).grabbed_toplevel = some t ∧
      (begin_interactive t PWC_CURSOR_RESIZE edges s).resize_edges = edges ∧
      (begin_interactive t PWC_CURSOR_RESIZE edges s).grab_geobox =
        { x := (s.geometry t).x + s.node_x t, y := (s.geometry t).y + s.node_y t,
          width := (s.geometry t).width, height := (s.geometry t).height } ∧
      (begin_interactive t PWC_CURSOR_RESIZE edges s).grab_x = double_sub s.cursor_x
        (((s.node_x t + (s.geometry t).x) +
          (if edges &&& WLR_EDGE_RIGHT ≠ 0 then (s.geometry t).width else 0) : Int) : ℚ) ∧
      (begin_interactive t PWC_CURSOR_RESIZE edges s).grab_y = double_sub s.cursor_y
        (((s.node_y t + (s.geometry t).y) +
          (if edges &&& WLR_EDGE_BOTTOM ≠ 0 then (s.geometry t).height else 0) : Int) : ℚ) ∧
      (begin_interactive t PWC_CURSOR_RESIZE edges s).geometry = s.geometry ∧
      (begin_interactive t PWC_CURSOR_RESIZE edges s).calls = s.calls := by
  have hne : ¬ (PWC_CURSOR_RESIZE = PWC_CURSOR_MOVE) := by decide
  unfold begin_interactive
  simp only [if_neg hne]
  simp

/-- C17, as stated, fails: the anchor lies on the dragged edge, not on the edge
opposite to it.  Toplevel 1 has layout box `[12, 23, 100, 50]`, the cursor is at
(115, 80) and the edges are right and bottom: the recorded offset is
(115 - 112, 80 - 73) = (3, 7), the distance to the right and bottom edges, and
not (115 - 12, 80 - 23), the distance to the left and top edges. -/
theorem resize_anchor_is_dragged_edge :
    (begin_interactive 1 PWC_CURSOR_RESIZE (WLR_EDGE_RIGHT ||| WLR_EDGE_BOTTOM)
        resize_base_example).grab_geobox = { x := 12, y := 23, width := 100, height := 50 } ∧
      (begin_interactive 1 PWC_CURSOR_RESIZE (WLR_EDGE_RIGHT ||| WLR_EDGE_BOTTOM)
        resize_base_example).grab_x = 3 ∧
      (begin_interactive 1 PWC_CURSOR_RESIZE (WLR_EDGE_RIGHT ||| WLR_EDGE_BOTTOM)
        resize_base_example).grab_y = 7 ∧
      (3 : ℚ) ≠ 115 - 12 ∧ (7 : ℚ) ≠ 80 - 23 := by
  obtain ⟨_, _, _, hbox, hx, hy, _, _⟩ := begin_interactive_resize_eq resize_base_example 1
    (WLR_EDGE_RIGHT ||| WLR_EDGE_BOTTOM)
  have hr : (WLR_EDGE_RIGHT ||| WLR_EDGE_BOTTOM) &&& WLR_EDGE_RIGHT ≠ 0 := by decide
  have hb : (WLR_EDGE_RIGHT ||| WLR_EDGE_BOTTOM) &&& WLR_EDGE_BOTTOM ≠ 0 := by decide
  rw [if_pos hr] at hx
  rw [if_pos hb] at hy
  have hcx : resize_base_example.cursor_x = ((115 : Int) : ℚ) := by
    norm_num [resize_base_example]
  have hcy : resize_base_example.cursor_y = ((80 : Int) : ℚ) := by
    norm_num [resize_base_example]
  refine ⟨?_, ?_, ?_, by norm_num, by norm_num⟩
  · rw [hbox]; rfl
  · rw [hx, hcx, double_sub_intCast]; norm_num [resize_base_example, server_init]
  · rw [hy, hcy, double_sub_intCast]; norm_num [resize_base_example, server_init]

/-- C17 (amended): `begin_interactive` in resize mode records the current
geometry box of the window in layout coordinates and the grab offset
`cursor - anchor`, a difference of `double`, where the anchor lies on the
dragged edges: its x is the right edge of the box when right is in the mask and
the left edge otherwise, its y is the bottom edge when bottom is in the mask and
the top edge otherwise.  For an integer-valued cursor coordinate the offset is
the exact difference. -/
theorem resize_records_box_and_offset (s : pwc_server) (t : Toplevel) (edges : Nat) :
    (begin_interactive t PWC_CURSOR_RESIZE edges s).cursor_mode = PWC_CURSOR_RESIZE ∧
      (begin_interactive t PWC_CURSOR_RESIZE edges s).grabbed_toplevel = some t ∧
      (begin_interactive t PWC_CURSOR_RESIZE edges s).resize_edges = edges ∧
      (begin_interactive t PWC_CURSOR_RESIZE edges s).grab_geobox =
        { x := (s.geometry t).x + s.node_x t, y := (s.geometry t).y + s.node_y t,
          width := (s.geometry t).width, height := (s.geometry t).height } ∧
      (edges &&& WLR_EDGE_RIGHT ≠ 0 →
        (begin_interactive t PWC_CURSOR_RESIZE edges s).grab_x = double_sub s.cursor_x
          (((begin_interactive t PWC_CURSOR_RESIZE edges s).grab_geobox.x +
            (begin_interactive t PWC_CURSOR_RESIZE edges s).grab_geobox.width : Int) : ℚ)) ∧
      (edges &&& WLR_EDGE_RIGHT = 0 →
        (begin_interactive t PWC_CURSOR_RESIZE edges s).grab_x = double_sub s.cursor_x
          ((begin_interactive t PWC_CURSOR_RESIZE edges s).grab_geobox.x : ℚ)) ∧
      (edges &&& WLR_EDGE_BOTTOM ≠ 0 →
        (begin_interactive t PWC_CURSOR_RESIZE edges s).grab_y = double_sub s.cursor_y
          (((begin_interactive t PWC_CURSOR_RESIZE edges s).grab_geobox.y +
            (begin_interactive t PWC_CURSOR_RESIZE edges s).grab_geobox.height : Int) : ℚ)) ∧
      (edges &&& WLR_EDGE_BOTTOM = 0 →
        (begin_interactive t PWC_CURSOR_RESIZE edges s).grab_y = double_sub s.cursor_y
          ((begin_interactive t PWC_CURSOR_RESIZE edges s).grab_geobox.y : ℚ)) ∧
      (∀ c : Int, s.cursor_x = (c : ℚ) →
        (begin_interactive t PWC_CURSOR_RESIZE edges s).grab_x =
          ((c - ((begin_interactive t PWC_CURSOR_RESIZE edges s).grab_geobox.x +
            (if edges &&& WLR_EDGE_RIGHT ≠ 0 then
              (begin_interactive t PWC_CURSOR_RESIZE edges s).grab_geobox.width else 0)) : Int)
            : ℚ)) ∧
      (∀ c : Int, s.cursor_y = (c : ℚ) →
        (begin_interactive t PWC_CURSOR_RESIZE edges s).grab_y =
          ((c - ((begin_interactive t PWC_CURSOR_RESIZE edges s).grab_geobox.y +
            (if edges &&& WLR_EDGE_BOTTOM ≠ 0 then
              (begin_interactive t PWC_CURSOR_RESIZE edges s).grab_geobox.height else 0)) : Int)
            : ℚ)) := by
  obtain ⟨hm, hg, he, hbox, hx, hy, _, _⟩ := begin_interactive_resize_eq s t edges
  refine ⟨hm, hg, he, hbox, ?_, ?_, ?_, ?_, ?_, ?_⟩
  · intro h
    rw [hx, hbox, if_pos h]
    simp only
    congr 2
    ring
  · intro h
    rw [hx, hbox, if_neg (not_not.2 h)]
    simp only
    congr 2
    ring
  · intro h
    rw [hy, hbox, if_pos h]
    simp only
    congr 2
    ring
  · intro h
    rw [hy, hbox, if_neg (not_not.2 h)]
    simp only
    congr 2
    ring
  · intro c hc
    rw [hx, hbox, hc, double_sub_intCast]
    simp only
    congr 2
    ring
  · intro c hc
    rw [hy, hbox, hc, double_sub_intCast]
    simp only
    congr 2
    ring

/-- Witness of C17 (amended): the resize grab of `resize_base_example` with edges
right and bottom. -/
theorem resize_records_box_and_offset_witness :
    (WLR_EDGE_RIGHT ||| WLR_EDGE_BOTTOM) &&& WLR_EDGE_RIGHT ≠ 0 ∧
      (WLR_EDGE_RIGHT ||| WLR_EDGE_BOTTOM) &&& WLR_EDGE_BOTTOM ≠ 0 ∧
      (begin_interactive 1 PWC_CURSOR_RESIZE (WLR_EDGE_RIGHT ||| WLR_EDGE_BOTTOM)
        resize_base_example).grab_x = double_sub resize_base_example.cursor_x
          (((begin_interactive 1 PWC_CURSOR_RESIZE (WLR_EDGE_RIGHT ||| WLR_EDGE_BOTTOM)
              resize_base_example).grab_geobox.x +
            (begin_interactive 1 PWC_CURSOR_RESIZE (WLR_EDGE_RIGHT ||| WLR_EDGE_BOTTOM)
              resize_base_example).grab_geobox.width : Int) : ℚ) ∧
      (begin_interactive 1 PWC_CURSOR_RESIZE (WLR_EDGE_RIGHT ||| WLR_EDGE_BOTTOM)
        resize_base_example).grab_y = double_sub resize_base_example.cursor_y
          (((begin_interactive 1 PWC_CURSOR_RESIZE (WLR_EDGE_RIGHT ||| WLR_EDGE_BOTTOM)
              resize_base_example).grab_geobox.y +
            (begin_interactive 1 PWC_CURSOR_RESIZE (WLR_EDGE_RIGHT ||| WLR_EDGE_BOTTOM)
              resize_base_example).grab_geobox.height : Int) : ℚ) :=
  have h := resize_records_box_and_offset resize_base_example 1
    (WLR_EDGE_RIGHT ||| WLR_EDGE_BOTTOM)
  ⟨by decide, by decide, h.2.2.2.2.1 (by decide), h.2.2.2.2.2.2.1 (by decide)⟩

/-! ## Listener teardown: theorems -/

/-- The listener addresses of a toplevel are those of the members that
`server_new_xdg_toplevel` registers. -/
theorem toplevel_listeners_links (t : Toplevel) :
    (toplevel_listeners t).map (fun l => l.link) = toplevel_registers.map (addr_of t) := by
  simp [toplevel_listeners, toplevel_registers]

/-- The handler `keyboard_handle_destroy` removes the listeners of its keyboard and
no other. -/
theorem keyboard_handle_destroy_listeners (s : pwc_server) (k : Nat) :
    (keyboard_handle_destroy k s).keyboard_listeners
      = s.keyboard_listeners.filter (fun l => decide (l.1 ≠ k)) := by
  unfold keyboard_handle_destroy
  simp only
  apply List.filter_congr
  intro l _
  rcases l with ⟨o, m⟩
  by_cases h : o = k
  · subst h
    cases m <;> simp [keyboard_unlinks]
  · simp [keyboard_unlinks, h]

/-- The handler `xdg_popup_destroy` removes the listeners of its popup and no other. -/
theorem xdg_popup_destroy_listeners (s : pwc_server) (p : Nat) :
    (xdg_popup_destroy p s).popup_listeners
      = s.popup_listeners.filter (fun l => decide (l.1 ≠ p)) := by
  unfold xdg_popup_destroy
  simp only
  apply List.filter_congr
  intro l _
  rcases l with ⟨o, m⟩
  by_cases h : o = p
  · subst h
    cases m <;> simp [popup_unlinks]
  · simp [popup_unlinks, h]

/-- A listener registered by `server_new_xdg_toplevel` lies at one of the members
that `xdg_toplevel_destroy` unlinks in toplevel `t` exactly when it is a listener
of `t`. -/
theorem toplevel_listener_unlinked (t : Toplevel) (l : wl_listener)
    (hl : l ∈ toplevel_listeners l.emitter) :
    decide (l.link ∉ destroy_unlinks.map (addr_of t)) = decide (l.emitter ≠ t) := by
  rcases l with ⟨e, sg, lk, nt⟩
  simp only [toplevel_listeners, List.mem_cons, wl_listener.mk.injEq, List.mem_singleton,
    List.not_mem_nil, or_false, true_and] at hl
  by_cases h : e = t
  · subst h
    rcases hl with ⟨_, rfl, _⟩ | ⟨_, rfl, _⟩ | ⟨_, rfl, _⟩ | ⟨_, rfl, _⟩ | ⟨_, rfl, _⟩ |
      ⟨_, rfl, _⟩ | ⟨_, rfl, _⟩ | ⟨_, rfl, _⟩ <;> simp [destroy_unlinks]
  · rcases hl with ⟨_, rfl, _⟩ | ⟨_, rfl, _⟩ | ⟨_, rfl, _⟩ | ⟨_, rfl, _⟩ | ⟨_, rfl, _⟩ |
      ⟨_, rfl, _⟩ | ⟨_, rfl, _⟩ | ⟨_, rfl, _⟩ <;> simp [destroy_unlinks, addr_of, h]

/-- The handler `xdg_toplevel_destroy`, run on the listener `destroy` of toplevel
`t`, removes the listeners of `t` and no other. -/
theorem xdg_toplevel_destroy_listeners (s : pwc_server) (t : Toplevel)
    (h : listeners_registered s) :
    xdg_toplevel_destroy (addr_of t toplevel_member.destroy) s =
      some { s with listeners := s.listeners.filter (fun l => decide (l.emitter ≠ t)) } := by
  unfold xdg_toplevel_destroy
  rw [as_toplevel_container_of]
  simp only
  have hf : s.listeners.filter (fun l => decide (l.link ∉ destroy_unlinks.map (addr_of t)))
      = s.listeners.filter (fun l => decide (l.emitter ≠ t)) :=
    List.filter_congr fun l hl => toplevel_listener_unlinked t l (h l hl)
  rw [hf]

/-- The shape of the listener list survives `server_new_xdg_toplevel`. -/
theorem listeners_registered_new (s : pwc_server) (t : Toplevel) (h : listeners_registered s) :
    listeners_registered (server_new_xdg_toplevel t s) := by
  intro l hl
  rw [server_new_xdg_toplevel_listeners, List.mem_append] at hl
  rcases hl with hl | hl
  · exact h l hl
  · have he : l.emitter = t := by
      simp only [toplevel_listeners, List.mem_cons, List.mem_singleton, List.not_mem_nil,
        or_false] at hl
      rcases hl with rfl | rfl | rfl | rfl | rfl | rfl | rfl | rfl <;> rfl
    rw [he]
    exact hl

/-- The listeners of a toplevel: eight of them, pairwise distinct, each on a signal
of the toplevel and located inside its allocation. -/
theorem toplevel_listeners_owned (t : Toplevel) :
    (toplevel_listeners t).length = 8 ∧ (toplevel_listeners t).Nodup ∧
      ∀ l ∈ toplevel_listeners t, l.emitter = t ∧ l.link.base = t := by
  refine ⟨rfl, ?_, ?_⟩
  · simp [toplevel_listeners, addr_of]
  · intro l hl
    simp only [toplevel_listeners, List.mem_cons, List.mem_singleton, List.not_mem_nil,
      or_false] at hl
    rcases hl with rfl | rfl | rfl | rfl | rfl | rfl | rfl | rfl <;> exact ⟨rfl, rfl⟩

/-- C18: for each of output, keyboard, toplevel and popup, the creation handler
registers 3, 3, 8 and 2 listeners, pairwise distinct and all owned by the new
object; the destroy handler removes from the listeners exactly those of its
object and keeps every listener of every other object, so that no listener of
the destroyed object remains; and for an object that had no listener before its
creation, the destroy handler run after the creation handler gives back the
listeners as they were: the listeners removed are those that the creation
registered. -/
theorem destroy_unlinks_what_creation_registers :
    ((∀ (s : pwc_server) (o : Nat) (mode : Option wlr_output_mode),
        ∃ new, (server_new_output o mode s).output_listeners = s.output_listeners ++ new ∧
          new.length = 3 ∧ new.Nodup ∧ ∀ l ∈ new, l.1 = o) ∧
      (∀ (s : pwc_server) (o : Nat),
        (output_destroy o s).output_listeners
            = s.output_listeners.filter (fun l => decide (l.1 ≠ o)) ∧
          ∀ l ∈ (output_destroy o s).output_listeners, l.1 ≠ o) ∧
      (∀ (s : pwc_server) (o : Nat) (mode : Option wlr_output_mode),
        (∀ l ∈ s.output_listeners, l.1 ≠ o) →
        (output_destroy o (server_new_output o mode s)).output_listeners
          = s.output_listeners)) ∧
    ((∀ (s : pwc_server) (k : Nat),
        ∃ new, (server_new_keyboard k s).keyboard_listeners = s.keyboard_listeners ++ new ∧
          new.length = 3 ∧ new.Nodup ∧ ∀ l ∈ new, l.1 = k) ∧
      (∀ (s : pwc_server) (k : Nat),
        (keyboard_handle_destroy k s).keyboard_listeners
            = s.keyboard_listeners.filter (fun l => decide (l.1 ≠ k)) ∧
          ∀ l ∈ (keyboard_handle_destroy k s).keyboard_listeners, l.1 ≠ k) ∧
      (∀ (s : pwc_server) (k : Nat),
        (∀ l ∈ s.keyboard_listeners, l.1 ≠ k) →
        (keyboard_handle_destroy k (server_new_keyboard k s)).keyboard_listeners
          = s.keyboard_listeners)) ∧
    ((∀ (s : pwc_server) (t : Toplevel),
        ∃ new, (server_new_xdg_toplevel t s).listeners = s.listeners ++ new ∧
          new.length = 8 ∧ new.Nodup ∧ ∀ l ∈ new, l.emitter = t ∧ l.link.base = t) ∧
      (∀ (s : pwc_server) (t : Toplevel),
        ∃ s1, xdg_toplevel_destroy (addr_of t toplevel_member.destroy) s = some s1 ∧
          ∀ l, l ∈ s1.listeners ↔
            l ∈ s.listeners ∧ l.link ∉ (toplevel_listeners t).map (fun a => a.link)) ∧
      (∀ (s : pwc_server) (t : Toplevel), listeners_registered s →
        ∃ s1, xdg_toplevel_destroy (addr_of t toplevel_member.destroy) s = some s1 ∧
          s1.listeners = s.listeners.filter (fun l => decide (l.emitter ≠ t)) ∧
          ∀ l ∈ s1.listeners, l.emitter ≠ t) ∧
      (∀ (s : pwc_server) (t : Toplevel), listeners_registered s →
        (∀ l ∈ s.listeners, l.emitter ≠ t) →
        ∃ s1, xdg_toplevel_destroy (addr_of t toplevel_member.destroy)
            (server_new_xdg_toplevel t s) = some s1 ∧
          s1.listeners = s.listeners)) ∧
    ((∀ (s : pwc_server) (p parent : Nat),
        ∃ s1 new, server_new_xdg_popup p (some parent) s = some s1 ∧
          s1.popup_listeners = s.popup_listeners ++ new ∧
          new.length = 2 ∧ new.Nodup ∧ ∀ l ∈ new, l.1 = p) ∧
      (∀ (s : pwc_server) (p : Nat),
        (xdg_popup_destroy p s).popup_listeners
            = s.popup_listeners.filter (fun l => decide (l.1 ≠ p)) ∧
          ∀ l ∈ (xdg_popup_destroy p s).popup_listeners, l.1 ≠ p) ∧
      (∀ (s : pwc_server) (p parent : Nat),
        (∀ l ∈ s.popup_listeners, l.1 ≠ p) →
        (server_new_xdg_popup p (some parent) s).map
            (fun s1 => (xdg_popup_destroy p s1).popup_listeners)
          = some s.popup_listeners)) := by
  have hrest : ∀ {α : Type} (q : α → Bool) (l1 l2 : List α), l1 = l2.filter q →
      ∀ x ∈ l1, q x = true := by
    intro α q l1 l2 h x hx
    rw [h] at hx
    exact (List.mem_filter.1 hx).2
  refine ⟨⟨?_, fun s o => ⟨output_destroy_listeners s o, fun l hl => by
        simpa using hrest _ _ _ (output_destroy_listeners s o) l hl⟩, ?_⟩,
    ⟨?_, fun s k => ⟨keyboard_handle_destroy_listeners s k, fun l hl => by
        simpa using hrest _ _ _ (keyboard_handle_destroy_listeners s k) l hl⟩, ?_⟩,
    ⟨?_, ?_, ?_, ?_⟩,
    ⟨?_, fun s p => ⟨xdg_popup_destroy_listeners s p, fun l hl => by
        simpa using hrest _ _ _ (xdg_popup_destroy_listeners s p) l hl⟩, ?_⟩⟩
  · intro s o mode
    exact ⟨output_registers.map (fun m => (o, m)), by simp [server_new_output, emit],
      rfl, by simp [output_registers], by simp [output_registers]⟩
  · intro s o mode hfresh
    rw [output_destroy_listeners]
    simp [server_new_output, emit, output_registers]
    exact fun a b h => hfresh (a, b) h
  · intro s k
    exact ⟨keyboard_registers.map (fun m => (k, m)),
      by simp [server_new_keyboard, emit, wlr_seat_set_keyboard],
      rfl, by simp [keyboard_registers], by simp [keyboard_registers]⟩
  · intro s k hfresh
    rw [keyboard_handle_destroy_listeners]
    simp [server_new_keyboard, emit, wlr_seat_set_keyboard, keyboard_registers]
    exact fun a b h => hfresh (a, b) h
  · intro s t
    exact ⟨toplevel_listeners t, server_new_xdg_toplevel_listeners t s,
      toplevel_listeners_owned t⟩
  · intro s t
    have hrun : xdg_toplevel_destroy (addr_of t toplevel_member.destroy) s =
        some { s with listeners :=
          s.listeners.filter fun l => decide (l.link ∉ destroy_unlinks.map (addr_of t)) } := by
      unfold xdg_toplevel_destroy
      rw [as_toplevel_container_of]
    refine ⟨_, hrun, ?_⟩
    intro l
    have he : destroy_unlinks.map (addr_of t) = (toplevel_listeners t).map (fun a => a.link) :=
      (toplevel_listeners_links t).symm
    simp only [List.mem_filter, decide_eq_true_eq, he]
  · intro s t h
    refine ⟨_, xdg_toplevel_destroy_listeners s t h, rfl, ?_⟩
    intro l hl
    simpa using (List.mem_filter.1 hl).2
  · intro s t h hfresh
    refine ⟨_, xdg_toplevel_destroy_listeners _ t (listeners_registered_new s t h), ?_⟩
    show (server_new_xdg_toplevel t s).listeners.filter (fun l => decide (l.emitter ≠ t))
      = s.listeners
    rw [server_new_xdg_toplevel_listeners, List.filter_append]
    have hk : s.listeners.filter (fun l => decide (l.emitter ≠ t)) = s.listeners :=
      List.filter_eq_self.2 fun l hl => by simpa using hfresh l hl
    have hn : (toplevel_listeners t).filter (fun l => decide (l.emitter ≠ t)) = [] := by
      simp [toplevel_listeners]
    rw [hk, hn, List.append_nil]
  · intro s p parent
    exact ⟨_, popup_registers.map (fun m => (p, m)), rfl, by simp [emit],
      rfl, by simp [popup_registers], by simp [popup_registers]⟩
  · intro s p parent hfresh
    simp [server_new_xdg_popup, xdg_popup_destroy_listeners, emit, popup_registers]
    exact fun a b h => hfresh (a, b) h

/-- Witness of C18: toplevel 2 exists, toplevel 1 is created and destroyed; the
listeners left are the eight of toplevel 2. -/
theorem destroy_unlinks_what_creation_registers_witness :
    listeners_registered (server_new_xdg_toplevel 2 server_init) ∧
      (∀ l ∈ (server_new_xdg_toplevel 2 server_init).listeners, l.emitter ≠ 1) ∧
      ∃ s1, xdg_toplevel_destroy (addr_of 1 toplevel_member.destroy)
          (server_new_xdg_toplevel 1 (server_new_xdg_toplevel 2 server_init)) = some s1 ∧
        s1.listeners = toplevel_listeners 2 :=
  have hreg : listeners_registered (server_new_xdg_toplevel 2 server_init) :=
    listeners_registered_new server_init 2 (fun l hl => absurd hl (List.not_mem_nil l))
  have hfresh : ∀ l ∈ (server_new_xdg_toplevel 2 server_init).listeners, l.emitter ≠ 1 := by
    decide
  have h := destroy_unlinks_what_creation_registers.2.2.1.2.2.2
    (server_new_xdg_toplevel 2 server_init) 1 hreg hfresh
  ⟨hreg, hfresh, h.elim fun s1 h1 => ⟨s1, h1.1, h1.2.trans (by decide)⟩⟩


/-! ## A grab always has its toplevel: theorems -/

/-- The property `grab_present` reads two fields only. -/
theorem grab_present_of_fields (s s1 : pwc_server) (hm : s1.cursor_mode = s.cursor_mode)
    (hg : s1.grabbed_toplevel = s.grabbed_toplevel) (h : grab_present s) : grab_present s1 := by
  unfold grab_present at *
  rw [hm, hg]
  exact h

/-- The function `focus_toplevel` touches neither the cursor mode nor the grab. -/
theorem focus_toplevel_grab (o : Option Toplevel) (s : pwc_server) :
    (focus_toplevel o s).cursor_mode = s.cursor_mode ∧
      (focus_toplevel o s).grabbed_toplevel = s.grabbed_toplevel := by
  rcases o with _ | W
  · exact ⟨rfl, rfl⟩
  · by_cases hW : s.focused_surface = some (Surface.xdg W)
    · simp [focus_toplevel, hW]
    · unfold focus_toplevel
      simp only [if_neg hW]
      rcases hf : s.focused_surface with _ | (p | n) <;>
        rcases hk : s.seat_keyboard with _ | k <;>
        simp [wlr_xdg_toplevel_try_from_wlr_surface, wlr_xdg_toplevel_set_activated, emit,
          wl_list_remove, wl_list_insert, wlr_seat_keyboard_notify_enter, hk]

/-- A keybinding command touches neither the cursor mode nor the grab. -/
theorem handle_keybindings_grab (s : pwc_server) (sym : Nat) :
    (handle_keybindings s sym).1.cursor_mode = s.cursor_mode ∧
      (handle_keybindings s sym).1.grabbed_toplevel = s.grabbed_toplevel := by
  unfold handle_keybindings
  split
  · exact ⟨rfl, rfl⟩
  · split
    · split
      · exact ⟨rfl, rfl⟩
      · exact focus_toplevel_grab _ s
    · split
      · exact ⟨rfl, rfl⟩
      · exact ⟨rfl, rfl⟩

/-- The keybinding loop touches neither the cursor mode nor the grab. -/
theorem keybindings_loop_grab (syms : List Nat) :
    ∀ (s : pwc_server) (handled : Bool),
      (keybindings_loop syms s handled).1.cursor_mode = s.cursor_mode ∧
        (keybindings_loop syms s handled).1.grabbed_toplevel = s.grabbed_toplevel := by
  induction syms with
  | nil => intro s handled; exact ⟨rfl, rfl⟩
  | cons sym syms ih =>
    intro s handled
    have h1 := ih (handle_keybindings s sym).1 (handle_keybindings s sym).2
    have h2 := handle_keybindings_grab s sym
    have heq : keybindings_loop (sym :: syms) s handled =
        keybindings_loop syms (handle_keybindings s sym).1 (handle_keybindings s sym).2 := by
      simp [keybindings_loop]
    rw [heq]
    exact ⟨h1.1.trans h2.1, h1.2.trans h2.2⟩

/-- The handler `keyboard_handle_key` touches neither the cursor mode nor the grab. -/
theorem keyboard_handle_key_grab (keyboard : pwc_keyboard) (event : wlr_keyboard_key_event)
    (s : pwc_server) :
    (keyboard_handle_key keyboard event s).cursor_mode = s.cursor_mode ∧
      (keyboard_handle_key keyboard event s).grabbed_toplevel = s.grabbed_toplevel := by
  unfold keyboard_handle_key
  simp only
  split
  · split
    · exact keybindings_loop_grab _ s false
    · exact keybindings_loop_grab _ s false
  · split
    · exact ⟨rfl, rfl⟩
    · exact ⟨rfl, rfl⟩

/-- Every handler of a toplevel listener keeps `grab_present`, whatever the
listener address it is called with. -/
theorem run_listener_grab (l : wl_listener) (edges : Nat) (flag : Bool) (s s1 : pwc_server)
    (h : grab_present s) (hrun : run_listener l edges flag s = some s1) : grab_present s1 := by
  unfold run_listener at hrun
  split at hrun
  · unfold xdg_toplevel_map at hrun
    split at hrun
    · cases hrun
    · cases hrun
      exact grab_present_of_fields s _ (focus_toplevel_grab _ _).1 (focus_toplevel_grab _ _).2 h
  · unfold xdg_toplevel_unmap at hrun
    split at hrun
    · cases hrun
    · cases hrun
      split
      · intro hm
        simp [wl_list_remove, reset_cursor_mode] at hm
      · exact grab_present_of_fields s _ rfl rfl h
  · unfold xdg_toplevel_commit at hrun
    split at hrun
    · cases hrun
    · split at hrun <;> cases hrun
      · exact grab_present_of_fields s _ rfl rfl h
      · exact h
  · unfold xdg_toplevel_destroy at hrun
    split at hrun
    · cases hrun
    · cases hrun
      exact grab_present_of_fields s _ rfl rfl h
  · unfold xdg_toplevel_request_move at hrun
    split at hrun
    · cases hrun
    · cases hrun
      intro _
      exact ⟨_, (begin_interactive_fields _ _ _ s).2.2.2.1⟩
  · unfold xdg_toplevel_request_resize at hrun
    split at hrun
    · cases hrun
    · cases hrun
      intro _
      exact ⟨_, (begin_interactive_fields _ _ _ s).2.2.2.1⟩
  · unfold xdg_toplevel_request_maximize at hrun
    split at hrun
    · cases hrun
    · split at hrun <;> cases hrun
      · exact grab_present_of_fields s _ rfl rfl h
      · exact h
  · unfold xdg_toplevel_request_fullscreen at hrun
    split at hrun
    · cases hrun
    · split at hrun <;> cases hrun
      · exact grab_present_of_fields s _ rfl rfl h
      · exact h

/-- A motion sample touches neither the cursor mode nor the grab. -/
theorem server_cursor_motion_grab (x y : ℚ) (time : Nat) (node : Option wlr_scene_node)
    (s s1 : pwc_server) (hs : server_cursor_motion x y time node s = some s1) :
    s1.cursor_mode = s.cursor_mode ∧ s1.grabbed_toplevel = s.grabbed_toplevel := by
  unfold server_cursor_motion process_cursor_motion at hs
  simp only at hs
  split at hs
  · unfold process_cursor_mode at hs
    simp only at hs
    split at hs
    · exact absurd hs (by simp)
    · cases hs
      exact ⟨rfl, rfl⟩
  · split at hs
    · unfold process_cursor_resize at hs
      simp only at hs
      split at hs
      · exact absurd hs (by simp)
      · cases hs
        exact ⟨rfl, rfl⟩
    · split at hs
      · cases hs
        split <;> exact ⟨rfl, rfl⟩
      · cases hs
        split <;> exact ⟨rfl, rfl⟩

/-- Every event keeps `grab_present`. -/
theorem dispatch_grab (e : Event) (s s1 : pwc_server) (h : grab_present s)
    (hd : dispatch e s = some s1) : grab_present s1 := by
  cases e with
  | new_xdg_toplevel t =>
    cases hd
    refine grab_present_of_fields s _ ?_ ?_ h
    · simp [server_new_xdg_toplevel, wl_signal_add]
    · simp [server_new_xdg_toplevel, wl_signal_add]
  | map t =>
    exact foldlM_some_inv grab_present _ _
      (fun l _ a a1 ha hrun => run_listener_grab l _ _ a a1 ha hrun) s s1 h hd
  | unmap t =>
    exact foldlM_some_inv grab_present _ _
      (fun l _ a a1 ha hrun => run_listener_grab l _ _ a a1 ha hrun) s s1 h hd
  | request_move t =>
    exact foldlM_some_inv grab_present _ _
      (fun l _ a a1 ha hrun => run_listener_grab l _ _ a a1 ha hrun) s s1 h hd
  | request_resize t edges =>
    exact foldlM_some_inv grab_present _ _
      (fun l _ a a1 ha hrun => run_listener_grab l _ _ a a1 ha hrun) s s1 h hd
  | cursor_button event node =>
    cases hd
    unfold server_cursor_button
    simp only
    split
    · intro hm
      simp [reset_cursor_mode] at hm
    · exact grab_present_of_fields s _ (focus_toplevel_grab _ _).1 (focus_toplevel_grab _ _).2 h
  | cursor_motion x y time node =>
    obtain ⟨hm, hg⟩ := server_cursor_motion_grab x y time node s s1 hd
    exact grab_present_of_fields s s1 hm hg h
  | key keyboard event =>
    cases hd
    exact grab_present_of_fields s _ (keyboard_handle_key_grab keyboard event s).1
      (keyboard_handle_key_grab keyboard event s).2 h

/-- With `grab_present`, a motion sample has a defined result: the move and the
resize handler find their grabbed toplevel. -/
theorem server_cursor_motion_defined (x y : ℚ) (time : Nat) (node : Option wlr_scene_node)
    (s : pwc_server) (h : grab_present s) :
    (server_cursor_motion x y time node s).isSome = true := by
  unfold server_cursor_motion process_cursor_motion
  simp only
  split
  · rename_i hm
    obtain ⟨t, ht⟩ := h (Or.inl hm)
    simp [process_cursor_mode, ht]
  · split
    · rename_i hm
      obtain ⟨t, ht⟩ := h (Or.inr hm)
      simp [process_cursor_resize, ht]
    · split <;> rfl

/-- A fold in `Option` over a list that holds an element on which the step is
never defined has no result. -/
theorem foldlM_none {α β : Type} (f : β → α → Option β) (x : α) (hx : ∀ b, f b x = none) :
    ∀ (l : List α), x ∈ l → ∀ b, l.foldlM f b = none := by
  intro l
  induction l with
  | nil => intro h; cases h
  | cons y ys ih =>
    intro h b
    rw [List.foldlM_cons]
    rcases List.mem_cons.1 h with rfl | h1
    · rw [hx b]
      rfl
    · cases hf : f b y with
      | none => rfl
      | some b1 => exact ih h1 b1

/-- The unmap event of a toplevel has no defined result once the listeners of the
toplevel are registered: the listener `unmap` runs `xdg_toplevel_unmap`, which
recovers its toplevel with the member `map`. -/
theorem dispatch_unmap_undefined (s : pwc_server) (t : Toplevel)
    (h : ∀ l ∈ toplevel_listeners t, l ∈ s.listeners) :
    dispatch (Event.unmap t) s = none := by
  have hd : as_toplevel (wl_container_of (addr_of t toplevel_member.unmap) toplevel_member.map)
      = none := by
    have ho : offsetof toplevel_member.unmap - offsetof toplevel_member.map = 3 := by decide
    simp [as_toplevel, wl_container_of, addr_of, ho]
  show wl_signal_emit t toplevel_signal.surface_unmap 0 false s = none
  unfold wl_signal_emit
  apply foldlM_none _
    { emitter := t, signal := toplevel_signal.surface_unmap,
      link := addr_of t toplevel_member.unmap, notify := toplevel_notify.xdg_toplevel_unmap }
  · intro b
    show xdg_toplevel_unmap (addr_of t toplevel_member.unmap) b = none
    unfold xdg_toplevel_unmap
    rw [hd]
  · rw [List.mem_filter]
    refine ⟨h _ (by simp [toplevel_listeners]), by simp⟩

/-- C19 (code bug): toplevel 1 is created and mapped and asks for a move, which
gives mode move with grabbed toplevel 1.  The unmap event of toplevel 1 then has
no defined result, and neither has a motion sample after it: `xdg_toplevel_unmap`
runs on the listener `unmap` and recovers its toplevel with the member `map`
(line 536), so the test of the grab and `reset_cursor_mode` go through a pointer
one `struct wl_listener` past the toplevel.  The same holds for the unmap event
of every toplevel, in whatever state the toplevel was created and whatever grab
was begun. -/
theorem unmap_during_grab_undefined :
    (run [Event.new_xdg_toplevel 1, Event.map 1, Event.request_move 1] server_init).map
        (fun s => (s.cursor_mode, s.grabbed_toplevel)) = some (PWC_CURSOR_MOVE, some 1) ∧
      (run [Event.new_xdg_toplevel 1, Event.map 1, Event.request_move 1, Event.unmap 1]
        server_init).isNone = true ∧
      (run [Event.new_xdg_toplevel 1, Event.map 1, Event.request_move 1, Event.unmap 1,
        Event.cursor_motion 50 20 0 none] server_init).isNone = true ∧
      ∀ (s : pwc_server) (t : Toplevel) (mode : pwc_cursor_mode) (edges : Nat),
        dispatch (Event.unmap t)
          (begin_interactive t mode edges (server_new_xdg_toplevel t s)) = none := by
  refine ⟨by decide, by decide, by decide, ?_⟩
  intro s t mode edges
  apply dispatch_unmap_undefined
  intro l hl
  have hb : (begin_interactive t mode edges (server_new_xdg_toplevel t s)).listeners
      = (server_new_xdg_toplevel t s).listeners := by
    unfold begin_interactive
    split <;> rfl
  rw [hb, server_new_xdg_toplevel_listeners]
  exact List.mem_append_right _ hl

/-- The handlers other than the unmap handler keep the grab together with the
mode: in every state reached with a defined result from a state in passthrough
mode, through any sequence of events, a cursor mode of move or resize comes with
a grabbed toplevel, and a motion sample handled in that state has a defined
result. -/
theorem grab_mode_has_grabbed_toplevel (s0 : pwc_server) (events : List Event)
    (s : pwc_server) (hm : s0.cursor_mode = PWC_CURSOR_PASSTHROUGH)
    (hrun : run events s0 = some s) :
    ((s.cursor_mode = PWC_CURSOR_MOVE ∨ s.cursor_mode = PWC_CURSOR_RESIZE) →
        ∃ t, s.grabbed_toplevel = some t) ∧
      ∀ (x y : ℚ) (time : Nat) (node : Option wlr_scene_node),
        (server_cursor_motion x y time node s).isSome = true := by
  have h0 : grab_present s0 := by
    intro h
    rw [hm] at h
    rcases h with h | h <;> cases h
  have hs : grab_present s :=
    foldlM_some_inv grab_present _ events
      (fun e _ a a1 ha hd => dispatch_grab e a a1 ha hd) s0 s h0 hrun
  exact ⟨hs, fun x y time node => server_cursor_motion_defined x y time node s hs⟩

/-- An instance of the preceding theorem: from the start state, toplevel 1 is
created and mapped, asks for a move, and the pointer moves to (50, 20); the run
ends in move mode. -/
theorem grab_mode_has_grabbed_toplevel_example :
    server_init.cursor_mode = PWC_CURSOR_PASSTHROUGH ∧
      (run [Event.new_xdg_toplevel 1, Event.map 1, Event.request_move 1,
            Event.cursor_motion 50 20 0 none] server_init).map (fun a => a.cursor_mode)
        = some PWC_CURSOR_MOVE ∧
      ∀ s, run [Event.new_xdg_toplevel 1, Event.map 1, Event.request_move 1,
            Event.cursor_motion 50 20 0 none] server_init = some s →
        ((s.cursor_mode = PWC_CURSOR_MOVE ∨ s.cursor_mode = PWC_CURSOR_RESIZE) →
            ∃ t, s.grabbed_toplevel = some t) ∧
          ∀ (x y : ℚ) (time : Nat) (node : Option wlr_scene_node),
            (server_cursor_motion x y time node s).isSome = true :=
  ⟨rfl, by decide, fun s h =>
    grab_mode_has_grabbed_toplevel server_init
      [Event.new_xdg_toplevel 1, Event.map 1, Event.request_move 1,
        Event.cursor_motion 50 20 0 none] s rfl h⟩

/-! ## Resize grab followed by a motion sample: theorems -/

/-- The edges that `process_cursor_resize` computes when the `double` difference
`cursor - grab` is the integral point `(bx, by1)`. -/
theorem resize_edges_at_of_int (s : pwc_server) (bx by1 : Int)
    (hbx : double_sub s.cursor_x s.grab_x = (bx : ℚ))
    (hby : double_sub s.cursor_y s.grab_y = (by1 : ℚ)) :
    (resize_edges_at s).1 =
        (if s.resize_edges &&& WLR_EDGE_LEFT ≠ 0 then
          (if bx ≥ s.grab_geobox.x + s.grab_geobox.width
            then s.grab_geobox.x + s.grab_geobox.width - 1 else bx)
        else s.grab_geobox.x) ∧
      (resize_edges_at s).2.1 =
        (if s.resize_edges &&& WLR_EDGE_LEFT ≠ 0 then s.grab_geobox.x + s.grab_geobox.width
        else if s.resize_edges &&& WLR_EDGE_RIGHT ≠ 0 then
          (if bx ≤ s.grab_geobox.x then s.grab_geobox.x + 1 else bx)
        else s.grab_geobox.x + s.grab_geobox.width) ∧
      (resize_edges_at s).2.2.1 =
        (if s.resize_edges &&& WLR_EDGE_TOP ≠ 0 then
          (if by1 ≥ s.grab_geobox.y + s.grab_geobox.height
            then s.grab_geobox.y + s.grab_geobox.height - 1 else by1)
        else s.grab_geobox.y) ∧
      (resize_edges_at s).2.2.2 =
        (if s.resize_edges &&& WLR_EDGE_TOP ≠ 0 then s.grab_geobox.y + s.grab_geobox.height
        else if s.resize_edges &&& WLR_EDGE_BOTTOM ≠ 0 then
          (if by1 ≤ s.grab_geobox.y then s.grab_geobox.y + 1 else by1)
        else s.grab_geobox.y + s.grab_geobox.height) := by
  unfold resize_edges_at
  simp only [hbx, hby, double_to_int_intCast]
  refine ⟨?_, ?_, ?_, ?_⟩ <;> split_ifs <;> rfl

/-- A motion sample in resize mode, in terms of the edges computed at the new
cursor position. -/
theorem server_cursor_motion_resize (x y : ℚ) (time : Nat) (node : Option wlr_scene_node)
    (s : pwc_server) (t : Toplevel) (hmode : s.cursor_mode = PWC_CURSOR_RESIZE)
    (hgrab : s.grabbed_toplevel = some t) :
    ∃ s2 s3, s2.cursor_x = x ∧ s2.cursor_y = y ∧ s2.grab_x = s.grab_x ∧ s2.grab_y = s.grab_y ∧
      s2.grab_geobox = s.grab_geobox ∧ s2.resize_edges = s.resize_edges ∧
      server_cursor_motion x y time node s = some s3 ∧
      s3.calls = s.calls ++
        [Call.scene_node_set_position t ((resize_edges_at s2).1 - (s.geometry t).x)
            ((resize_edges_at s2).2.2.1 - (s.geometry t).y),
          Call.xdg_toplevel_set_size t ((resize_edges_at s2).2.1 - (resize_edges_at s2).1)
            ((resize_edges_at s2).2.2.2 - (resize_edges_at s2).2.2.1)] := by
  have hrun : server_cursor_motion x y time node s =
      process_cursor_resize { s with cursor_x := x, cursor_y := y } := by
    simp [server_cursor_motion, process_cursor_motion, hmode]
  rw [hrun, process_cursor_resize_eq { s with cursor_x := x, cursor_y := y } t hgrab]
  exact ⟨{ s with cursor_x := x, cursor_y := y }, _, rfl, rfl, rfl, rfl, rfl, rfl, rfl,
    List.append_assoc _ _ _⟩

/-- C20: for integral cursor coordinates, a geometry of width and height at least
1 and an edge mask with at most one edge per axis, a resize grab begun with the
cursor at `(cx, cy)` and followed by a motion sample at `(cx1, cy1)` requests the
box whose dragged edges are their positions at grab time plus
`(cx1 - cx, cy1 - cy)`, clamped so that the extent stays at least 1, and whose
other edges are unchanged; a motion sample at the grab position reproduces the
recorded box (same left, top, width and height). -/
theorem resize_grab_then_motion (s : pwc_server) (t : Toplevel) (edges : Nat)
    (cx cy cx1 cy1 : Int) (time : Nat) (node : Option wlr_scene_node)
    (hcx : s.cursor_x = (cx : ℚ)) (hcy : s.cursor_y = (cy : ℚ))
    (hw : 1 ≤ (s.geometry t).width) (hh : 1 ≤ (s.geometry t).height)
    (hlr : ¬ (edges &&& WLR_EDGE_LEFT ≠ 0 ∧ edges &&& WLR_EDGE_RIGHT ≠ 0))
    (htb : ¬ (edges &&& WLR_EDGE_TOP ≠ 0 ∧ edges &&& WLR_EDGE_BOTTOM ≠ 0)) :
    ∃ (new_left new_right new_top new_bottom : Int) (s3 : pwc_server),
      server_cursor_motion (cx1 : ℚ) (cy1 : ℚ) time node
          (begin_interactive t PWC_CURSOR_RESIZE edges s) = some s3 ∧
      s3.calls = s.calls ++
        [Call.scene_node_set_position t (new_left - (s.geometry t).x)
            (new_top - (s.geometry t).y),
          Call.xdg_toplevel_set_size t (new_right - new_left) (new_bottom - new_top)] ∧
      new_left = (if edges &&& WLR_EDGE_LEFT ≠ 0
        then min (layout_left s t + (cx1 - cx)) (layout_right s t - 1)
        else layout_left s t) ∧
      new_right = (if edges &&& WLR_EDGE_RIGHT ≠ 0
        then max (layout_right s t + (cx1 - cx)) (layout_left s t + 1)
        else layout_right s t) ∧
      new_top = (if edges &&& WLR_EDGE_TOP ≠ 0
        then min (layout_top s t + (cy1 - cy)) (layout_bottom s t - 1)
        else layout_top s t) ∧
      new_bottom = (if edges &&& WLR_EDGE_BOTTOM ≠ 0
        then max (layout_bottom s t + (cy1 - cy)) (layout_top s t + 1)
        else layout_bottom s t) ∧
      (cx1 = cx → cy1 = cy →
        new_left = layout_left s t ∧ new_top = layout_top s t ∧
          new_right - new_left = (s.geometry t).width ∧
          new_bottom - new_top = (s.geometry t).height) := by
  obtain ⟨hm, hg, he, hbox, hx, hy, hgeo, hcalls⟩ := begin_interactive_resize_eq s t edges
  obtain ⟨s2, s3, h2x, h2y, h2gx, h2gy, h2box, h2e, hrun, hc⟩ :=
    server_cursor_motion_resize (cx1 : ℚ) (cy1 : ℚ) time node
      (begin_interactive t PWC_CURSOR_RESIZE edges s) t hm hg
  rw [hgeo, hcalls] at hc
  have hbx : double_sub s2.cursor_x s2.grab_x =
      ((cx1 - cx + ((s.node_x t + (s.geometry t).x) +
        (if edges &&& WLR_EDGE_RIGHT ≠ 0 then (s.geometry t).width else 0)) : Int) : ℚ) := by
    rw [h2x, h2gx, hx, hcx, double_sub_intCast, double_sub_intCast]
    congr 1
    ring
  have hby : double_sub s2.cursor_y s2.grab_y =
      ((cy1 - cy + ((s.node_y t + (s.geometry t).y) +
        (if edges &&& WLR_EDGE_BOTTOM ≠ 0 then (s.geometry t).height else 0)) : Int) : ℚ) := by
    rw [h2y, h2gy, hy, hcy, double_sub_intCast, double_sub_intCast]
    congr 1
    ring
  obtain ⟨e1, e2, e3, e4⟩ := resize_edges_at_of_int s2 _ _ hbx hby
  rw [h2box, h2e, he, hbox] at e1 e2 e3 e4
  simp only at e1 e2 e3 e4
  refine ⟨_, _, _, _, s3, hrun, hc, ?_, ?_, ?_, ?_, ?_⟩
  · rw [e1]
    unfold layout_right layout_left
    by_cases hl : edges &&& WLR_EDGE_LEFT ≠ 0
    · have hr : ¬ (edges &&& WLR_EDGE_RIGHT ≠ 0) := fun h => hlr ⟨hl, h⟩
      rw [if_pos hl, if_pos hl, if_neg hr]
      split <;> omega
    · rw [if_neg hl, if_neg hl]
      omega
  · rw [e2]
    unfold layout_right layout_left
    by_cases hl : edges &&& WLR_EDGE_LEFT ≠ 0
    · have hr : ¬ (edges &&& WLR_EDGE_RIGHT ≠ 0) := fun h => hlr ⟨hl, h⟩
      rw [if_pos hl, if_neg hr]
      omega
    · by_cases hr : edges &&& WLR_EDGE_RIGHT ≠ 0
      · rw [if_neg hl, if_pos hr, if_pos hr, if_pos hr]
        split <;> omega
      · rw [if_neg hl, if_neg hr, if_neg hr]
        omega
  · rw [e3]
    unfold layout_bottom layout_top
    by_cases hl : edges &&& WLR_EDGE_TOP ≠ 0
    · have hr : ¬ (edges &&& WLR_EDGE_BOTTOM ≠ 0) := fun h => htb ⟨hl, h⟩
      rw [if_pos hl, if_pos hl, if_neg hr]
      split <;> omega
    · rw [if_neg hl, if_neg hl]
      omega
  · rw [e4]
    unfold layout_bottom layout_top
    by_cases hl : edges &&& WLR_EDGE_TOP ≠ 0
    · have hr : ¬ (edges &&& WLR_EDGE_BOTTOM ≠ 0) := fun h => htb ⟨hl, h⟩
      rw [if_pos hl, if_neg hr]
      omega
    · by_cases hr : edges &&& WLR_EDGE_BOTTOM ≠ 0
      · rw [if_neg hl, if_pos hr, if_pos hr, if_pos hr]
        split <;> omega
      · rw [if_neg hl, if_neg hr, if_neg hr]
        omega
  · intro h1 h2
    subst h1 h2
    rw [e1, e2, e3, e4]
    unfold layout_left layout_top
    refine ⟨?_, ?_, ?_, ?_⟩
    · split_ifs <;> omega
    · split_ifs <;> omega
    · split_ifs <;> omega
    · split_ifs <;> omega

/-- Witness of C20: in `resize_base_example` (layout box `[12, 23, 100, 50]`,
cursor at (115, 80)) a resize grab with edges right and bottom followed by a
motion to (125, 70) keeps the window at node position (10, 20) and requests the
size 110 x 40. -/
theorem resize_grab_then_motion_witness :
    resize_base_example.cursor_x = ((115 : Int) : ℚ) ∧
      resize_base_example.cursor_y = ((80 : Int) : ℚ) ∧
      1 ≤ (resize_base_example.geometry 1).width ∧
      1 ≤ (resize_base_example.geometry 1).height ∧
      ∃ s3, server_cursor_motion ((125 : Int) : ℚ) ((70 : Int) : ℚ) 0 none
          (begin_interactive 1 PWC_CURSOR_RESIZE (WLR_EDGE_RIGHT ||| WLR_EDGE_BOTTOM)
            resize_base_example) = some s3 ∧
        s3.calls = [Call.scene_node_set_position 1 10 20, Call.xdg_toplevel_set_size 1 110 40] := by
  have hcx : resize_base_example.cursor_x = ((115 : Int) : ℚ) := by
    norm_num [resize_base_example]
  have hcy : resize_base_example.cursor_y = ((80 : Int) : ℚ) := by
    norm_num [resize_base_example]
  obtain ⟨nl, nr, nt, nb, s3, hrun, hc, e1, e2, e3, e4, _⟩ :=
    resize_grab_then_motion resize_base_example 1 (WLR_EDGE_RIGHT ||| WLR_EDGE_BOTTOM)
      115 80 125 70 0 none hcx hcy (by decide) (by decide) (by decide) (by decide)
  have h1 : nl = 12 := e1.trans (by decide)
  have h2 : nr = 122 := e2.trans (by decide)
  have h3 : nt = 23 := e3.trans (by decide)
  have h4 : nb = 63 := e4.trans (by decide)
  subst h1 h2 h3 h4
  exact ⟨hcx, hcy, by decide, by decide, s3, hrun, hc.trans (by decide)⟩

/-! ## Repeated cycle focus: theorems -/

/-- The function `focus_toplevel` does not change the keyboard of the seat. -/
theorem focus_toplevel_seat_keyboard (o : Option Toplevel) (s : pwc_server) :
    (focus_toplevel o s).seat_keyboard = s.seat_keyboard := by
  rcases o with _ | W
  · rfl
  · by_cases hW : s.focused_surface = some (Surface.xdg W)
    · simp [focus_toplevel, hW]
    · unfold focus_toplevel
      simp only [if_neg hW]
      rcases hf : s.focused_surface with _ | (p | n) <;>
        rcases hk : s.seat_keyboard with _ | k <;>
        simp [wlr_xdg_toplevel_try_from_wlr_surface, wlr_xdg_toplevel_set_activated, emit,
          wl_list_remove, wl_list_insert, wlr_seat_keyboard_notify_enter, hk]

/-- One cycle-focus command in a state of `cycle_ready` whose registry is `r`
followed by the tail `W`: the registry becomes `W` followed by `r`, the keyboard
of the seat stays, `W` gets keyboard focus when the seat has a keyboard, and the
state is again in `cycle_ready`. -/
theorem cycle_focus_step (s : pwc_server) (r : List Toplevel) (W : Toplevel)
    (h : cycle_ready s) (hreg : s.toplevels = r ++ [W]) :
    (cycle_focus s).toplevels = W :: r ∧
      (cycle_focus s).seat_keyboard = s.seat_keyboard ∧
      (s.seat_keyboard ≠ none → (cycle_focus s).focused_surface = some (Surface.xdg W)) ∧
      cycle_ready (cycle_focus s) := by
  obtain ⟨hlen, hnd, hhead, hkb⟩ := h
  rw [hreg] at hlen hnd hhead hkb
  have hWr : W ∉ r := by
    intro hmem
    have := List.disjoint_of_nodup_append hnd hmem (List.mem_singleton_self W)
    exact this
  have hr : r ≠ [] := by
    intro h0
    rw [h0] at hlen
    simp at hlen
  have hfoc : s.focused_surface ≠ some (Surface.xdg W) := by
    intro hf
    have h1 := hhead W (by simp) hf
    obtain ⟨a, r1, har⟩ := List.exists_cons_of_ne_nil hr
    rw [har] at h1 hWr
    simp only [List.cons_append, List.head?_cons, Option.some.injEq] at h1
    exact hWr (h1 ▸ List.mem_cons_self _ _)
  have hF1 : XKB_KEY_F1 ≠ XKB_KEY_Escape := by decide
  have hlt : ¬ (r.length + 1 < 2) := by
    have := hlen
    simp only [List.length_append, List.length_singleton] at this
    omega
  have hcyc : cycle_focus s = focus_toplevel (some W) s := by
    simp [cycle_focus, handle_keybindings, hF1, hreg, hlt]
  have hreg2 : (cycle_focus s).toplevels = W :: r := by
    rw [hcyc, focus_toplevel_toplevels s W hfoc, hreg]
    congr 1
    rw [List.erase_append_right _ hWr]
    simp
  have hkeep : (cycle_focus s).seat_keyboard = s.seat_keyboard := by
    rw [hcyc]; exact focus_toplevel_seat_keyboard _ s
  have hnew : (cycle_focus s).focused_surface =
      match s.seat_keyboard with
      | some _ => some (Surface.xdg W)
      | none => s.focused_surface := by
    rw [hcyc]; exact focus_toplevel_focused s W hfoc
  refine ⟨hreg2, hkeep, ?_, ?_, ?_, ?_, ?_⟩
  · intro hk
    rw [hnew]
    rcases hs : s.seat_keyboard with _ | k
    · exact absurd hs hk
    · rfl
  · rw [hreg2]
    simpa using hlen
  · rw [hreg2]
    have hp : (W :: r).Perm (r ++ [W]) := by
      have hc : ([W] ++ r).Perm (r ++ [W]) := List.perm_append_comm
      simpa using hc
    exact hp.nodup_iff.2 hnd
  · intro t ht hf
    rw [hreg2] at ht ⊢
    rw [hnew] at hf
    rcases hs : s.seat_keyboard with _ | k
    · rw [hs] at hf
      rcases hkb with hk | hk
      · exact absurd hs hk
      · exact absurd hf (hk t (by
          rcases List.mem_cons.1 ht with h1 | h1
          · simp [h1]
          · simp [h1]))
    · rw [hs] at hf
      have : t = W := by simpa using hf.symm
      simp [this]
  · rw [hkeep, hreg2, hnew]
    rcases hkb with hk | hk
    · exact Or.inl hk
    · rcases hs : s.seat_keyboard with _ | k
      · right
        intro t ht
        exact hk t (by
          rcases List.mem_cons.1 ht with h1 | h1
          · simp [h1]
          · simp [h1])
      · left
        simp

/-- A list rotated by `m` ends with the element that heads it when rotated by
`m - 1`, and that element is the one of index `m - 1`. -/
theorem rotate_tail_head (L : List Toplevel) (m : Nat) (hm : 1 ≤ m) (hmn : m ≤ L.length) :
    ∃ W r, L.rotate m = r ++ [W] ∧ L.rotate (m - 1) = W :: r ∧ L[m - 1]? = some W := by
  have hne : L.rotate (m - 1) ≠ [] := by
    intro h0
    have hl := List.length_rotate L (m - 1)
    rw [h0] at hl
    simp at hl
    omega
  obtain ⟨W, r, hWr⟩ := List.exists_cons_of_ne_nil hne
  refine ⟨W, r, ?_, hWr, ?_⟩
  · have h1 : L.rotate m = (L.rotate (m - 1)).rotate 1 := by
      rw [List.rotate_rotate]
      congr 1
      omega
    rw [h1, hWr, List.rotate_cons_succ, List.rotate_zero]
  · have h2 := List.head?_rotate (l := L) (n := m - 1) (by omega)
    rw [hWr] at h2
    simpa using h2.symm

/-- After `k` cycle-focus commands, `k` at most the length `n` of the registry, the
registry is the original one rotated by `n - k`. -/
theorem cycle_focus_iterate (s : pwc_server) (h : cycle_ready s) :
    ∀ k, k ≤ s.toplevels.length →
      cycle_ready (Nat.iterate cycle_focus k s) ∧
        (Nat.iterate cycle_focus k s).toplevels = s.toplevels.rotate (s.toplevels.length - k) ∧
        (Nat.iterate cycle_focus k s).seat_keyboard = s.seat_keyboard := by
  intro k
  induction k with
  | zero =>
    intro _
    exact ⟨h, by simp [List.rotate_length], rfl⟩
  | succ k ih =>
    intro hk
    obtain ⟨hready, hreg, hkb⟩ := ih (by omega)
    obtain ⟨W, r, h1, h2, _⟩ := rotate_tail_head s.toplevels (s.toplevels.length - k)
      (by omega) (by omega)
    rw [h1] at hreg
    obtain ⟨hstep, hkeep, _, hready2⟩ := cycle_focus_step _ r W hready hreg
    rw [Function.iterate_succ_apply']
    refine ⟨hready2, ?_, hkeep.trans hkb⟩
    rw [hstep, ← h2]
    congr 1

/-- The cycle-focus command number `k + 1`: the registry before it is `r` followed
by its tail `W`, the registry after it is `W` followed by `r`, `W` is the element
of index `k` of the reversed original registry, and `W` gets keyboard focus when
the seat has a keyboard. -/
theorem cycle_focus_iterate_step (s : pwc_server) (h : cycle_ready s) (k : Nat)
    (hk : k < s.toplevels.length) :
    ∃ W r, (Nat.iterate cycle_focus k s).toplevels = r ++ [W] ∧
      (Nat.iterate cycle_focus (k + 1) s).toplevels = W :: r ∧
      s.toplevels.reverse[k]? = some W ∧
      (s.seat_keyboard ≠ none →
        (Nat.iterate cycle_focus (k + 1) s).focused_surface = some (Surface.xdg W)) := by
  obtain ⟨hready, hreg, hkb⟩ := cycle_focus_iterate s h k (by omega)
  obtain ⟨W, r, h1, _, h3⟩ := rotate_tail_head s.toplevels (s.toplevels.length - k)
    (by omega) (by omega)
  rw [h1] at hreg
  obtain ⟨hstep, _, hfoc, _⟩ := cycle_focus_step _ r W hready hreg
  refine ⟨W, r, hreg, ?_, ?_, ?_⟩
  · rw [Function.iterate_succ_apply']
    exact hstep
  · rw [List.getElem?_reverse hk]
    have he : s.toplevels.length - 1 - k = s.toplevels.length - k - 1 := by omega
    rw [he]
    exact h3
  · intro hs
    rw [Function.iterate_succ_apply']
    exact hfoc (by rw [hkb]; exact hs)

/-- C21, as stated, fails: in `stale_focus_example` the registry is `[1, 2]`, its
head 1 holds keyboard focus and the seat has no keyboard.  The first cycle-focus
command makes the registry `[2, 1]` and cannot move the keyboard focus; the
second one finds the tail 1 focused and does nothing, so after two commands the
registry is `[2, 1]`, not `[1, 2]`. -/
theorem cycle_focus_stale_focus_stops :
    stale_focus_example.toplevels = [1, 2] ∧
      stale_focus_example.focused_surface = some (Surface.xdg 1) ∧
      (Nat.iterate cycle_focus 1 stale_focus_example).toplevels = [2, 1] ∧
      (Nat.iterate cycle_focus 1 stale_focus_example).focused_surface = some (Surface.xdg 1) ∧
      (Nat.iterate cycle_focus 2 stale_focus_example).toplevels = [2, 1] := by
  decide

/-- C21 (amended): for a registry of `n` pairwise distinct toplevels, `n` at least
2, in which a keyboard-focused toplevel of the registry is the head, and with a
keyboard on the seat unless no toplevel of the registry is focused (`cycle_ready`),
`n` cycle-focus commands in succession leave the registry in its original
order; each command moves the tail of the registry to its head; the toplevels
selected by the `n` commands are those of the original registry from tail to
head, each exactly once, and each gets keyboard focus when the seat has a
keyboard. -/
theorem cycle_focus_full_turn (s : pwc_server) (h : cycle_ready s) :
    (Nat.iterate cycle_focus s.toplevels.length s).toplevels = s.toplevels ∧
      (∀ k, k < s.toplevels.length →
        ∃ W r, (Nat.iterate cycle_focus k s).toplevels = r ++ [W] ∧
          (Nat.iterate cycle_focus (k + 1) s).toplevels = W :: r ∧
          s.toplevels.reverse[k]? = some W ∧
          (s.seat_keyboard ≠ none →
            (Nat.iterate cycle_focus (k + 1) s).focused_surface = some (Surface.xdg W))) ∧
      (List.range s.toplevels.length).map
          (fun k => (Nat.iterate cycle_focus k s).toplevels.getLast?)
        = s.toplevels.reverse.map some ∧
      s.toplevels.reverse.Nodup := by
  refine ⟨?_, fun k hk => cycle_focus_iterate_step s h k hk, ?_, List.nodup_reverse.2 h.2.1⟩
  · have := (cycle_focus_iterate s h s.toplevels.length (le_refl _)).2.1
    simpa using this
  · apply List.ext_getElem?
    intro k
    by_cases hk : k < s.toplevels.length
    · obtain ⟨W, r, h1, _, h3, _⟩ := cycle_focus_iterate_step s h k hk
      rw [List.getElem?_map, List.getElem?_map, List.getElem?_range hk, h3]
      simp [h1]
    · have hr : (List.range s.toplevels.length).length ≤ k := by
        rw [List.length_range]; omega
      have hv : s.toplevels.reverse.length ≤ k := by
        rw [List.length_reverse]; omega
      rw [List.getElem?_map, List.getElem?_map, List.getElem?_eq_none hr,
        List.getElem?_eq_none hv]
      rfl

/-- Witness of C21 (amended): in `three_mapped_example` (registry `[1, 2, 3]`,
toplevel 1 focused, a keyboard on the seat) three cycle-focus commands select
3, 2 and 1 and give back the registry `[1, 2, 3]`. -/
theorem cycle_focus_full_turn_witness :
    cycle_ready three_mapped_example ∧
      (Nat.iterate cycle_focus 3 three_mapped_example).toplevels = [1, 2, 3] ∧
      (List.range 3).map
          (fun k => (Nat.iterate cycle_focus k three_mapped_example).toplevels.getLast?)
        = [some 3, some 2, some 1] :=
  have hready : cycle_ready three_mapped_example := by
    unfold cycle_ready
    decide
  have h := cycle_focus_full_turn three_mapped_example hready
  ⟨hready, h.1, h.2.2.1⟩

end Pwc
